import Mathlib

/-!
Verification of the i40e transmit/receive data path
(`usr/src/uts/common/io/i40e/i40e_transceiver.c`).

This file gives a shallow embedding of the data structures and the
operations of the TX/RX data path, and proves or refutes the frozen
claims about it.  Conventions used throughout:

* C pointers that are only tested against `NULL` become `Option`.
* Machine integers become `Nat`; the few places where the C code relies
  on wrap-around are modelled with explicit subtraction cases
  (`i40e_next_desc` / `i40e_prev_desc` are branchy in the source too).
* `mblk_t` chains become lists of byte lists; a single message block is
  a record of its buffer bytes plus read/write offsets.
* Stateful functions become pure functions from a state record to a
  state record.  Hardware register writes are recorded in trace fields
  of the state so that theorems can speak about them.
* Fallible kernel services (`allocb`, `desballoc`, `kmem_zalloc`,
  `ddi_dma_addr_bind_handle`, FM handle checks, the device-written
  writeback head) are oracles passed in as explicit parameters.
* kstat counters that have no influence on control flow are omitted.
-/

namespace I40e

/-! ## Ring index helpers (source lines 497-533) -/

/-- `i40e_next_desc`: advance a descriptor index by `count` modulo
`size`, written with the same branch as the C source. -/
def i40e_next_desc (base count size : Nat) : Nat :=
  if base + count < size then base + count else base + count - size

/-- `i40e_prev_desc`: move a descriptor index back by `count` modulo
`size`, written with the same branch as the C source. -/
def i40e_prev_desc (base count size : Nat) : Nat :=
  if count ≤ base then base - count else base + size - count

/-! ## DMA buffers (source lines 538-568)

`i40e_dma_buffer_t` carries a virtual address, a bus address, two
platform handles, the allocated size and the in-use length.  Handles
and addresses are only ever compared against `NULL` by the code we
model, so they are `Option Nat`. -/

structure DmaBuffer where
  dmab_address : Option Nat
  dmab_dma_address : Option Nat
  dmab_acc_handle : Option Nat
  dmab_dma_handle : Option Nat
  dmab_size : Nat
  dmab_len : Nat
deriving Repr, DecidableEq

/-- A fully zeroed, never initialised buffer. -/
def DmaBuffer.zeroed : DmaBuffer :=
  { dmab_address := none, dmab_dma_address := none, dmab_acc_handle := none,
    dmab_dma_handle := none, dmab_size := 0, dmab_len := 0 }

/-- `i40e_free_dma_buffer` (source lines 538-568): unbind / free each
resource whose field is non-`NULL`, then null the field; always zero
`dmab_len` at the end. -/
def i40e_free_dma_buffer (dmap : DmaBuffer) : DmaBuffer :=
  let d1 := if dmap.dmab_dma_address ≠ none then
      { dmap with dmab_dma_address := none, dmab_size := 0 }
    else dmap
  let d2 := if d1.dmab_acc_handle ≠ none then
      { d1 with dmab_acc_handle := none, dmab_address := none }
    else d1
  let d3 := if d2.dmab_dma_handle ≠ none then
      { d2 with dmab_dma_handle := none }
    else d2
  { d3 with dmab_len := 0 }

/-! ## RX data structures

An `mblk_t` handed upstream is modelled by its buffer bytes and the
read/write offsets into them.  A receive control block
(`i40e_rx_control_block_t`) carries a reference count, an optional
pre-built message block, its DMA buffer bookkeeping, and — separately
from the bookkeeping — the bytes currently sitting in that buffer
(`rcb_data` models the memory at `dmab_address`, which already starts
`I40E_BUF_IPHDR_ALIGNMENT` bytes past the raw base). -/

/-- `I40E_BUF_IPHDR_ALIGNMENT`: the two-byte IP-alignment pad
(header constant; value fixed by the spec's data model). -/
def I40E_BUF_IPHDR_ALIGNMENT : Nat := 2

structure RxMblk where
  bytes : List Nat
  rptr : Nat
  wptr : Nat
deriving Repr, DecidableEq

structure Rcb where
  rcb_ref : Nat
  rcb_mp : Option RxMblk
  rcb_dma : DmaBuffer
  rcb_data : List Nat
deriving Repr, DecidableEq

/-- `desballoc` over an rcb's DMA buffer: a message block aliasing the
buffer bytes, with empty read/write window until a length is set. -/
def rcbDesballoc (rcb : Rcb) : RxMblk :=
  { bytes := rcb.rcb_data, rptr := 0, wptr := 0 }

/-- One 16-byte RX descriptor.  The `wb_*` fields are the device-written
writeback view of the status word (DD, EOP, the error field, the packet
length and packet type — bit positions are hardware header constants,
so the fields are kept structured); the `read_*` fields are the
host-written read view.  The two views overlay in the hardware union:
re-arming the read view clears the writeback status. -/
structure RxDesc where
  wb_dd : Bool
  wb_eop : Bool
  wb_error : Nat
  wb_plen : Nat
  wb_ptype : Nat
  read_pkt_addr : Nat
  read_hdr_addr : Nat
deriving Repr, DecidableEq

/-- `i40e_rx_data_t`: the descriptor ring, the software head
(`rxd_desc_next`), the work list and free list (holding indices into
the rcb pool `rxd_rcbs`, which models `rxd_rcb_area`), the pending-loan
counter and the shutdown flag. -/
structure RxData where
  rxd_ring_size : Nat
  rxd_desc_ring : List RxDesc
  rxd_desc_next : Nat
  rxd_work_list : List Nat
  rxd_free_list : List Nat
  rxd_rcbs : List Rcb
  rxd_rcb_pending : Nat
  rxd_shutdown : Bool
deriving Repr, DecidableEq

def RxData.setRcb (rxd : RxData) (i : Nat) (rcb : Rcb) : RxData :=
  { rxd with rxd_rcbs := rxd.rxd_rcbs.set i rcb }

/-- `i40e_rcb_free` (source lines 1114-1123): push an rcb on the free
stack. -/
def i40e_rcb_free (rxd : RxData) (i : Nat) : RxData :=
  { rxd with rxd_free_list := i :: rxd.rxd_free_list }

/-- `i40e_rcb_alloc` (source lines 1125-1142): pop the free stack;
`none` when it is empty. -/
def i40e_rcb_alloc (rxd : RxData) : Option Nat × RxData :=
  match rxd.rxd_free_list with
  | [] => (none, rxd)
  | r :: rest => (some r, { rxd with rxd_free_list := rest })

/-! ## RX recycle (source lines 1149-1205) -/

/-- The state the recycle callback touches beyond one `RxData`: the
per-instance pending-loan counter, whether `i40e_free_rx_data` has run,
and how many times the teardown condition was signalled. -/
structure RxRecycleState where
  rxd : RxData
  i40e_rx_pending : Nat
  rxd_freed : Bool
  cv_broadcasts : Nat
deriving Repr, DecidableEq

/-- `i40e_rx_recycle`: invoked by the upstream stack when a loaned
frame is freed.  A zero reference count means teardown already took the
last reference, so return at once.  Otherwise rebuild the message block
(`desballoc` outcome is the oracle `desballoc_ok`), push the rcb on the
free list, and drop the reference; on the final reference free the
message and the DMA buffer, drop the pending counters, and finish the
shutdown when it was the last pending block. -/
def i40e_rx_recycle (desballoc_ok : Bool) (i : Nat) (s : RxRecycleState) :
    RxRecycleState :=
  match s.rxd.rxd_rcbs.get? i with
  | none => s
  | some rcb =>
    if rcb.rcb_ref = 0 then s
    else
      let rcb1 := { rcb with
        rcb_mp := if desballoc_ok then some (rcbDesballoc rcb) else none }
      let rxd1 := i40e_rcb_free (s.rxd.setRcb i rcb1) i
      let ref := rcb1.rcb_ref - 1
      if ref = 0 then
        let rcb2 := { rcb1 with
          rcb_ref := 0
          rcb_mp := none
          rcb_dma := i40e_free_dma_buffer rcb1.rcb_dma }
        let rxd2 := { rxd1.setRcb i rcb2 with
          rxd_rcb_pending := rxd1.rxd_rcb_pending - 1 }
        let s2 := { s with
          rxd := rxd2
          i40e_rx_pending := s.i40e_rx_pending - 1 }
        if rxd2.rxd_shutdown && rxd2.rxd_rcb_pending == 0 then
          { s2 with rxd_freed := true, cv_broadcasts := s2.cv_broadcasts + 1 }
        else s2
      else
        { s with rxd := rxd1.setRcb i { rcb1 with rcb_ref := ref } }

/-! ## RX frame production: bind and copy -/

/-- Oracles for one RX walk: the fatal-error bit mask
(`I40E_RX_ERR_BITS`, a header constant kept abstract here), the FM
verdicts on the descriptor area (entry and exit), on the tail-register
handle and on each slot's buffer handle, and the success of the
`allocb` / `desballoc` calls made while processing each slot. -/
structure RxEnv where
  rx_err_bits : Nat
  desc_fm_ok : Bool
  desc_fm_ok2 : Bool
  reg_fm_ok : Bool
  rcb_fm_ok : Nat → Bool
  allocb_ok : Nat → Bool
  desballoc_ok : Nat → Bool

structure RxOpResult where
  mp : Option RxMblk
  rxd : RxData
  fmerr : Bool

/-- `i40e_rx_bind` (source lines 1207-1258): pull a replacement rcb
from the free list (`none` when empty — the caller falls back to copy);
give the working rcb a message block if it lost its pre-built one; on
FM success hand the working buffer upward with its reference bumped and
install the replacement in the work list.  Note the source pushes the
*working* rcb — not the replacement — back on the free list in the two
failure branches; the model reproduces that. -/
def i40e_rx_bind (env : RxEnv) (rxd : RxData) (index plen : Nat) :
    RxOpResult :=
  match i40e_rcb_alloc rxd with
  | (none, rxd') => { mp := none, rxd := rxd', fmerr := false }
  | (some rep, rxd') =>
    match rxd'.rxd_work_list.get? index with
    | none => { mp := none, rxd := rxd', fmerr := false }
    | some ri =>
      match rxd'.rxd_rcbs.get? ri with
      | none => { mp := none, rxd := rxd', fmerr := false }
      | some rcb =>
        let withMp : Option (Rcb × RxData) :=
          match rcb.rcb_mp with
          | some _ => some (rcb, rxd')
          | none =>
            if env.desballoc_ok index then
              let rcb' := { rcb with rcb_mp := some (rcbDesballoc rcb) }
              some (rcb', rxd'.setRcb ri rcb')
            else none
        match withMp with
        | none => { mp := none, rxd := i40e_rcb_free rxd' ri, fmerr := false }
        | some (rcb', rxd'') =>
          if env.rcb_fm_ok index = false then
            { mp := none, rxd := i40e_rcb_free rxd'' ri, fmerr := true }
          else
            let mp : RxMblk :=
              { bytes := rcb'.rcb_data, rptr := 0, wptr := plen }
            let rcb'' := { rcb' with rcb_ref := rcb'.rcb_ref + 1 }
            { mp := some mp,
              rxd := { rxd''.setRcb ri rcb'' with
                rxd_work_list := rxd''.rxd_work_list.set index rep },
              fmerr := false }

/-- `i40e_rx_copy` (source lines 1265-1295): after an FM check on the
buffer handle, allocate a fresh message block of `plen` plus the
two-byte pad, advance its read pointer past the pad, and copy `plen`
bytes of the DMA buffer in; the working rcb stays in place.  The bytes
under the pad are unspecified by `allocb` and modelled as zero. -/
def i40e_rx_copy (env : RxEnv) (rxd : RxData) (index plen : Nat) :
    RxOpResult :=
  match (rxd.rxd_work_list.get? index).bind rxd.rxd_rcbs.get? with
  | none => { mp := none, rxd := rxd, fmerr := false }
  | some rcb =>
    if env.rcb_fm_ok index = false then
      { mp := none, rxd := rxd, fmerr := true }
    else if env.allocb_ok index = false then
      { mp := none, rxd := rxd, fmerr := false }
    else
      { mp := some
          { bytes := List.replicate I40E_BUF_IPHDR_ALIGNMENT 0 ++
              rcb.rcb_data.take plen,
            rptr := I40E_BUF_IPHDR_ALIGNMENT,
            wptr := I40E_BUF_IPHDR_ALIGNMENT + plen },
        rxd := rxd, fmerr := false }

/-! ## RX ring walk (source lines 1458-1655) -/

/-- The configuration bits `i40e_ring_rx` reads from the instance. -/
structure I40eRxCfg where
  state_started : Bool
  state_overtemp : Bool
  state_suspended : Bool
  state_error : Bool
  rx_dma_min : Nat
  rx_limit_per_intr : Nat
  rx_hcksum_enable : Bool

/-- The loop state of one `i40e_ring_rx` invocation, together with the
trace of QRX tail-register writes and two outcome markers (`entered`:
admission passed; `panicked`: the missing-EOP `VERIFY` fired). -/
structure RxWalk where
  rxd : RxData
  cur_head : Nat
  rx_bytes : Nat
  rx_frames : Nat
  frames : List RxMblk
  fm_error : Bool
  panicked : Bool
  entered : Bool
  qrx_tail_writes : List Nat

/-- Produce one frame (source lines 1570-1574): try the bind path when
the length reaches the copy threshold, and fall back to the copy path
whenever bind produced nothing. -/
def rxProduce (cfg : I40eRxCfg) (env : RxEnv) (rxd : RxData)
    (index plen : Nat) : RxOpResult :=
  let r1 : RxOpResult :=
    if cfg.rx_dma_min ≤ plen then i40e_rx_bind env rxd index plen
    else { mp := none, rxd := rxd, fmerr := false }
  match r1.mp with
  | some _ => r1
  | none =>
    let c := i40e_rx_copy env r1.rxd index plen
    { mp := c.mp, rxd := c.rxd, fmerr := r1.fmerr || c.fmerr }

/-- Consume one ready frame (source lines 1560-1581): account its
length, produce the frame via `rxProduce`, and append it to the
delivered list when production succeeded.  (The checksum tagging of the
delivered frame, `i40e_rx_hcksum`, only annotates the message block and
is not modelled.) -/
def rxConsume (cfg : I40eRxCfg) (env : RxEnv) (plen : Nat) (w : RxWalk) :
    RxWalk :=
  let r2 := rxProduce cfg env w.rxd w.cur_head plen
  { w with
    rx_bytes := w.rx_bytes + plen
    rxd := r2.rxd
    fm_error := w.fm_error || r2.fmerr
    frames :=
      match r2.mp with
      | some mp => w.frames ++ [mp]
      | none => w.frames }

/-- The `discard` tail of the loop body (source lines 1593-1615):
re-arm the current descriptor with the working buffer's bus address and
a zero header address (which overlays and clears the writeback status),
advance the software head, and count the frame. -/
def rxRearm (w : RxWalk) : RxWalk :=
  let rcbAddr : Nat :=
    match (w.rxd.rxd_work_list.get? w.cur_head).bind w.rxd.rxd_rcbs.get? with
    | some rcb => rcb.rcb_dma.dmab_dma_address.getD 0
    | none => 0
  let ring' :=
    match w.rxd.rxd_desc_ring.get? w.cur_head with
    | some d => w.rxd.rxd_desc_ring.set w.cur_head
        { d with read_pkt_addr := rcbAddr, read_hdr_addr := 0,
                 wb_dd := false, wb_eop := false, wb_error := 0,
                 wb_plen := 0, wb_ptype := 0 }
    | none => w.rxd.rxd_desc_ring
  { w with rxd := { w.rxd with rxd_desc_ring := ring' },
           cur_head := i40e_next_desc w.cur_head 1 w.rxd.rxd_ring_size,
           rx_frames := w.rx_frames + 1 }

/-- Does reading a `plen`-byte frame overrun the polling quota?
`poll_bytes = none` models the `I40E_POLL_NULL` sentinel. -/
def pollExceeded (poll_bytes : Option Nat) (rx_bytes plen : Nat) : Bool :=
  match poll_bytes with
  | none => false
  | some q => q < rx_bytes + plen

/-- The descriptor walk of `i40e_ring_rx` (source lines 1519-1616),
written with explicit fuel.  One unit of fuel is one loop iteration;
the per-interrupt frame limit bounds the iteration count by
`rx_limit_per_intr + 1` (see `rxLoop_quota` and `rxLoop_frames_le`),
so the driver entry point below supplies fuel `rx_limit_per_intr + 2`,
enough for the walk to reach its natural exit. -/
def rxLoop (cfg : I40eRxCfg) (env : RxEnv) (poll_bytes : Option Nat) :
    Nat → RxWalk → RxWalk
  | 0, w => w
  | fuel + 1, w =>
    match w.rxd.rxd_desc_ring.get? w.cur_head with
    | none => w
    | some desc =>
      if desc.wb_dd = false then w
      else if desc.wb_eop = false then { w with panicked := true }
      else if (desc.wb_error &&& env.rx_err_bits) ≠ 0 then
        let w' := rxRearm w
        if cfg.rx_limit_per_intr < w'.rx_frames then w'
        else rxLoop cfg env poll_bytes fuel w'
      else if pollExceeded poll_bytes w.rx_bytes desc.wb_plen then w
      else
        let w' := rxRearm (rxConsume cfg env desc.wb_plen w)
        if cfg.rx_limit_per_intr < w'.rx_frames then w'
        else rxLoop cfg env poll_bytes fuel w'

/-- The initial walk state for an invocation on `rxd`. -/
def RxWalk.init (rxd : RxData) (entered : Bool) : RxWalk :=
  { rxd := rxd, cur_head := rxd.rxd_desc_next, rx_bytes := 0, rx_frames := 0,
    frames := [], fm_error := false, panicked := false, entered := entered,
    qrx_tail_writes := [] }

/-- The loop-exit tail of `i40e_ring_rx` (source lines 1618-1652): the
exit sync with its FM check and, only when at least one frame was
consumed, the software-head update and the tail-register write
`(software_head - 1) mod ring_size`, followed by the register-handle FM
check.  A fired `VERIFY` (panic) stops everything after it.  The
intermediate FM update touches only `fm_error`, so the conditions and
field reads below are phrased on the incoming walk state `w0`, whose
values they equal. -/
def rxFinish (env : RxEnv) (w0 : RxWalk) : RxWalk :=
  if w0.panicked = true then w0
  else
    let w1 := if env.desc_fm_ok2 = false then { w0 with fm_error := true }
      else w0
    if w0.rx_frames ≠ 0 then
      let tail := i40e_prev_desc w0.cur_head 1 w0.rxd.rxd_ring_size
      let w2 := { w1 with
        rxd := { w1.rxd with rxd_desc_next := w0.cur_head }
        qrx_tail_writes := w1.qrx_tail_writes ++ [tail] }
      if env.reg_fm_ok = false then { w2 with fm_error := true } else w2
    else w1

/-- `i40e_ring_rx` (source lines 1458-1655): admission checks and the
entry FM check, the descriptor walk, then the loop-exit processing of
`rxFinish`. -/
def i40e_ring_rx (cfg : I40eRxCfg) (env : RxEnv) (poll_bytes : Option Nat)
    (rxd : RxData) : RxWalk :=
  if cfg.state_started = false ∨ cfg.state_overtemp ∨ cfg.state_suspended ∨
      cfg.state_error then
    RxWalk.init rxd false
  else if env.desc_fm_ok = false then
    { RxWalk.init rxd false with fm_error := true }
  else
    rxFinish env (rxLoop cfg env poll_bytes (cfg.rx_limit_per_intr + 2)
      (RxWalk.init rxd true))

/-- Total byte length of a delivered frame list. -/
def sumLen (l : List RxMblk) : Nat :=
  (l.map fun m => m.wptr - m.rptr).sum

/-! ## TX frame parser (source lines 1684-1912)

A transmit `mblk_t` chain is a list of fragments, each a list of byte
values.  The wire-format constants below (header field offsets, header
sizes, Ethertypes, IP protocol numbers, and the VXLAN header length)
come from the system headers, which are not part of this repository's
core; their values are the standard ones the spec's wire-protocol
section refers to. -/

def ETHERTYPE_VLAN : Nat := 0x8100
def ETHERTYPE_IP : Nat := 0x0800
def ETHERTYPE_IPV6 : Nat := 0x86dd
def IPPROTO_TCP : Nat := 6
def IPPROTO_UDP : Nat := 17
def IPPROTO_SCTP : Nat := 132
/-- `offsetof(struct ether_header, ether_type)` -/
def ETHER_TYPE_OFF : Nat := 12
/-- `offsetof(struct ether_vlan_header, ether_type)` -/
def ETHER_VLAN_TYPE_OFF : Nat := 16
/-- `sizeof (struct ether_header)` -/
def ETHER_HDR_SIZE : Nat := 14
/-- `sizeof (struct ether_vlan_header)` -/
def ETHER_VLAN_HDR_SIZE : Nat := 18
/-- `offsetof(ipha_t, ipha_version_and_hdr_length)` -/
def IPHA_VERLEN_OFF : Nat := 0
/-- `offsetof(ipha_t, ipha_protocol)` -/
def IPHA_PROTOCOL_OFF : Nat := 9
/-- `offsetof(ip6_t, ip6_nxt)` -/
def IP6_NXT_OFF : Nat := 6
/-- `offsetof(tcph_t, th_offset_and_rsrvd)` -/
def TCPH_OFFSET_OFF : Nat := 12
/-- `sizeof (struct udphdr)` -/
def UDPHDR_SIZE : Nat := 8
/-- `sizeof (sctp_hdr_t)` -/
def SCTPHDR_SIZE : Nat := 12
def VXLAN_HDR_LEN : Nat := 8

/-- The tunnel type read off the frame (`TTYPE_*` header constants);
`other` stands for any value that is neither `TTYPE_NONE` nor
`TTYPE_VXLAN`. -/
inductive TType where
  | tnone
  | vxlan
  | other
deriving Repr, DecidableEq

/-- `msgsize(9F)`: total bytes across the chain. -/
def msgsize (mp : List (List Nat)) : Nat := (mp.map List.length).sum

/-- The fragment walk shared by the two accessors (`while (off >=
mpsize)` in the source): find the fragment holding `off` and read its
byte. -/
def chainByte : List (List Nat) → Nat → Option Nat
  | [], _ => none
  | f :: rest, off =>
    if off < f.length then f.get? off else chainByte rest (off - f.length)

/-- `i40e_meoi_get_uint8` (source lines 1733-1755).  The overflow guard
deliberately uses `sizeof (uint16_t)` even for this one-byte read —
the conservative check the spec says to preserve. -/
def i40e_meoi_get_uint8 (mp : List (List Nat)) (off : Nat) : Option Nat :=
  if off + 2 > msgsize mp then none else chainByte mp off

/-- The fragment walk of the two-byte read: the second byte may sit in
the next fragment (an out-of-bounds dereference there — possible only
for an empty next fragment — is modelled as `none`). -/
def chainU16 : List (List Nat) → Nat → Option Nat
  | [], _ => none
  | f :: rest, off =>
    if off < f.length then
      match f.get? off with
      | none => none
      | some hi =>
        if off + 1 = f.length then
          match rest with
          | [] => none
          | g :: _ =>
            match g.get? 0 with
            | none => none
            | some lo => some ((hi <<< 8) ||| lo)
        else
          match f.get? (off + 1) with
          | none => none
          | some lo => some ((hi <<< 8) ||| lo)
    else chainU16 rest (off - f.length)

/-- `i40e_meoi_get_uint16` (source lines 1757-1791): big-endian
two-byte read across fragment boundaries. -/
def i40e_meoi_get_uint16 (mp : List (List Nat)) (off : Nat) : Option Nat :=
  if off + 2 > msgsize mp then none else chainU16 mp off

/-- `mac_ether_offload_info_t` (source lines 1696-1719); the flag bits
of `meoi_flags` are individual booleans, and the unused checksum-mblk
members are omitted. -/
structure MacEtherOffloadInfo where
  meoi_l2info_set : Bool
  meoi_vlan_tagged : Bool
  meoi_l3info_set : Bool
  meoi_l4info_set : Bool
  meoi_tuninfo_set : Bool
  meoi_l2hlen : Nat
  meoi_l3proto : Nat
  meoi_l3hlen : Nat
  meoi_l4proto : Nat
  meoi_l4hlen : Nat
  meoi_tun_protlen : Nat
  meoi_tun_l2hlen : Nat
  meoi_tun_l3proto : Nat
  meoi_tun_l3hlen : Nat
  meoi_tun_l4proto : Nat
  meoi_tun_l4hlen : Nat
deriving Repr, DecidableEq

/-- The `bzero`ed struct the parser starts from. -/
def MacEtherOffloadInfo.zero : MacEtherOffloadInfo :=
  { meoi_l2info_set := false, meoi_vlan_tagged := false,
    meoi_l3info_set := false, meoi_l4info_set := false,
    meoi_tuninfo_set := false, meoi_l2hlen := 0, meoi_l3proto := 0,
    meoi_l3hlen := 0, meoi_l4proto := 0, meoi_l4hlen := 0,
    meoi_tun_protlen := 0, meoi_tun_l2hlen := 0, meoi_tun_l3proto := 0,
    meoi_tun_l3hlen := 0, meoi_tun_l4proto := 0, meoi_tun_l4hlen := 0 }

/-- The L4 part of the parser (the `switch (ipproto)` at source lines
1855-1877): TCP reads and validates the data offset, UDP and SCTP use
their fixed header sizes, anything else returns success with the
L4-info flag still clear. -/
def meoiL4 (mp : List (List Nat)) (starting_off maclen iplen ipproto : Nat)
    (m2 : MacEtherOffloadInfo) : Option MacEtherOffloadInfo :=
  if ipproto = IPPROTO_TCP then
    match i40e_meoi_get_uint8 mp
        (TCPH_OFFSET_OFF + maclen + iplen + starting_off) with
    | none => none
    | some t =>
      let l4len := (t &&& 0xf0) >>> 4
      if l4len < 5 ∨ 0xf < l4len then none
      else some { m2 with meoi_l4hlen := l4len * 4, meoi_l4info_set := true }
  else if ipproto = IPPROTO_UDP then
    some { m2 with meoi_l4hlen := UDPHDR_SIZE, meoi_l4info_set := true }
  else if ipproto = IPPROTO_SCTP then
    some { m2 with meoi_l4hlen := SCTPHDR_SIZE, meoi_l4info_set := true }
  else some m2

/-- The non-tunnel body of `mac_ether_offload_info` (source lines
1801-1877): resolve the Ethertype through an optional VLAN tag, then
the L3 header (out-of-range IPv4 header length fails; an Ethertype that
is neither IP nor IPv6 returns success with only the L2 info set), then
the L4 header via `meoiL4`. -/
def meoiCore (mp : List (List Nat)) (starting_off : Nat) :
    Option MacEtherOffloadInfo :=
  match i40e_meoi_get_uint16 mp (ETHER_TYPE_OFF + starting_off) with
  | none => none
  | some ether0 =>
    let step : Option (MacEtherOffloadInfo × Nat × Nat) :=
      if ether0 = ETHERTYPE_VLAN then
        match i40e_meoi_get_uint16 mp (ETHER_VLAN_TYPE_OFF + starting_off) with
        | none => none
        | some e2 =>
          some ({ MacEtherOffloadInfo.zero with meoi_vlan_tagged := true },
            ETHER_VLAN_HDR_SIZE, e2)
      else some (MacEtherOffloadInfo.zero, ETHER_HDR_SIZE, ether0)
    match step with
    | none => none
    | some (m0, maclen, ether) =>
      let m1 := { m0 with
        meoi_l2info_set := true
        meoi_l2hlen := maclen
        meoi_l3proto := ether }
      let l3 : Option (Option (Nat × Nat)) :=
        if ether = ETHERTYPE_IP then
          match i40e_meoi_get_uint8 mp
              (IPHA_VERLEN_OFF + maclen + starting_off) with
          | none => none
          | some b =>
            let iplen := b &&& 0x0f
            if iplen < 5 ∨ 0x0f < iplen then none
            else
              match i40e_meoi_get_uint8 mp
                  (IPHA_PROTOCOL_OFF + maclen + starting_off) with
              | none => none
              | some ipproto => some (some (iplen * 4, ipproto))
        else if ether = ETHERTYPE_IPV6 then
          match i40e_meoi_get_uint8 mp
              (IP6_NXT_OFF + maclen + starting_off) with
          | none => none
          | some ipproto => some (some (40, ipproto))
        else some none
      match l3 with
      | none => none
      | some none => some m1
      | some (some (iplen, ipproto)) =>
        let m2 := { m1 with
          meoi_l3hlen := iplen
          meoi_l4proto := ipproto
          meoi_l3info_set := true }
        meoiL4 mp starting_off maclen iplen ipproto m2

/-- `mac_ether_offload_info` (source lines 1793-1912).  A tunnel type
other than `TTYPE_NONE` / `TTYPE_VXLAN` fails at once.  The VXLAN block
runs exactly when the body fell through to the end of the function,
which is exactly when the L4-info flag got set; it requires UDP, parses
the inner headers at `maclen + iplen + l4len + 8` by the recursive
`TTYPE_NONE` call (which equals `meoiCore`), and demands a complete
inner L2/L3/L4. -/
def mac_ether_offload_info (mp : List (List Nat)) (ttype : TType)
    (starting_off : Nat) : Option MacEtherOffloadInfo :=
  if ttype ≠ TType.tnone ∧ ttype ≠ TType.vxlan then none
  else
    match meoiCore mp starting_off with
    | none => none
    | some m =>
      if ttype = TType.vxlan ∧ m.meoi_l4info_set = true then
        if m.meoi_l4proto ≠ IPPROTO_UDP then none
        else
          let off := m.meoi_l2hlen + m.meoi_l3hlen + m.meoi_l4hlen +
            VXLAN_HDR_LEN
          match meoiCore mp off with
          | none => none
          | some mi =>
            if ¬(mi.meoi_l2info_set = true ∧ mi.meoi_l3info_set = true ∧
                mi.meoi_l4info_set = true) then none
            else some { m with
              meoi_tun_protlen := VXLAN_HDR_LEN
              meoi_tun_l2hlen := mi.meoi_l2hlen
              meoi_tun_l3proto := mi.meoi_l3proto
              meoi_tun_l3hlen := mi.meoi_l3hlen
              meoi_tun_l4proto := mi.meoi_l4proto
              meoi_tun_l4hlen := mi.meoi_l4hlen
              meoi_tuninfo_set := true }
      else some m

/-- The Ethertype the parser resolves after an optional VLAN tag,
mirroring the parser's own reads. -/
def resolvedEtherType (mp : List (List Nat)) : Option Nat :=
  match i40e_meoi_get_uint16 mp ETHER_TYPE_OFF with
  | none => none
  | some e =>
    if e = ETHERTYPE_VLAN then i40e_meoi_get_uint16 mp ETHER_VLAN_TYPE_OFF
    else some e

/-! ## TX descriptor command constants

The hardware command and type values the TX path ORs into descriptors.
They are fixed by the device datasheet (sections 8.3 and 8.4, which the
spec's wire-protocol section points at); the header that carries them
(`i40e_type.h`) is not part of this repository's core sources. -/

def I40E_TX_DESC_DTYPE_DATA : Nat := 0x0
def I40E_TX_DESC_DTYPE_CONTEXT : Nat := 0x1
def I40E_TX_DESC_CMD_EOP : Nat := 0x1
def I40E_TX_DESC_CMD_RS : Nat := 0x2
def I40E_TX_DESC_CMD_ICRC : Nat := 0x4
def I40E_TX_DESC_CMD_IIPT_IPV6 : Nat := 0x20
def I40E_TX_DESC_CMD_IIPT_IPV4 : Nat := 0x40
def I40E_TX_DESC_CMD_IIPT_IPV4_CSUM : Nat := 0x60
def I40E_TX_DESC_CMD_L4T_EOFT_TCP : Nat := 0x100
def I40E_TX_DESC_CMD_L4T_EOFT_SCTP : Nat := 0x200
def I40E_TX_DESC_CMD_L4T_EOFT_UDP : Nat := 0x300
def I40E_TX_CTX_DESC_TSO : Nat := 0x1
def I40E_TX_DESC_LENGTH_MACLEN_SHIFT : Nat := 0
def I40E_TX_DESC_LENGTH_IPLEN_SHIFT : Nat := 7
def I40E_TX_DESC_LENGTH_L4_FC_LEN_SHIFT : Nat := 14
def I40E_TX_DESC_TNL_EIPT_IPV6 : Nat := 0x1
def I40E_TX_DESC_TNL_EIPT_IPV4 : Nat := 0x2
def I40E_TX_DESC_TNL_EIPT_IPV4_CSUM : Nat := 0x3
def I40E_TX_DESC_TNL_L4TUNT_UDP : Nat := 0x1

/-- Modelled from the spec: the tunneling-field packing macros
`I40E_TXD_TNL_SET_{EIPT,EIPLEN,L4TUNT,L4TUNLEN,DECTTL}` used at source
lines 2053-2058 live in driver headers missing from `src/`; the spec
fixes which items are packed (outer IP type, outer IP length, tunnel L4
type, tunnel length, TTL-decrement flag) and the datasheet their bit
positions (EIPT bits 0-1, EIPLEN bits 2-8, L4TUNT bits 9-10, L4TUNLEN
bits 11-17, DECTTL bits 19-22). -/
def txdTnlField (eipt eiplen l4tunt l4tunlen decttl : Nat) : Nat :=
  eipt ||| (eiplen <<< 2) ||| (l4tunt <<< 9) ||| (l4tunlen <<< 11) |||
    (decttl <<< 19)

/-! ## TX offload context (source lines 1914-2227) -/

/-- An outgoing frame: its fragment chain plus the offload metadata MAC
attached to it (checksum request flags, LSO request and MSS, tunnel
type), which the source reads with `mac_hcksum_get` / `mac_lso_get` /
`mac_tunnel_type_get`. -/
structure TxFrame where
  chain : List (List Nat)
  hck_ipv4_hdrcksum : Bool
  hck_partialcksum : Bool
  hck_inner_v4_hdrcksum : Bool
  hck_inner_pseudo : Bool
  hw_lso : Bool
  lso_mss : Nat
  ttype : TType
deriving Repr, DecidableEq

/-- `i40e_tx_context_t`: what the pre-compute step hands to descriptor
emission. -/
structure I40eTxContext where
  itc_ctx_cmdflags : Nat
  itc_ctx_tsolen : Nat
  itc_ctx_mss : Nat
  itc_ctx_tunneled : Bool
  itc_ctx_tunnel_fld : Nat
  itc_data_offsets : Nat
  itc_data_cmdflags : Nat
deriving Repr, DecidableEq

/-- The `bzero`ed context. -/
def I40eTxContext.zero : I40eTxContext :=
  { itc_ctx_cmdflags := 0, itc_ctx_tsolen := 0, itc_ctx_mss := 0,
    itc_ctx_tunneled := false, itc_ctx_tunnel_fld := 0,
    itc_data_offsets := 0, itc_data_cmdflags := 0 }

/-- The tunneled branch of `i40e_tx_context` (source lines 1983-2113):
validate the outer L2/L3/L4-over-UDP and the tunnel info, refuse an
outer L4 checksum request, build the tunneling field and the MAC-length
offset, pick the inner IP type (for the no-inner-checksum case the
source consults the *outer* L3 protocol), set the inner IP length, and
optionally the inner L4 type and length. -/
def tx_context_tunneled (fr : TxFrame) (meo : MacEtherOffloadInfo)
    (tctx : I40eTxContext) : Option I40eTxContext :=
  if meo.meoi_l2info_set = false then none
  else if meo.meoi_l3info_set = false then none
  else if meo.meoi_l4info_set = false ∨ meo.meoi_l4proto ≠ IPPROTO_UDP then
    none
  else if meo.meoi_tuninfo_set = false then none
  else if fr.hck_partialcksum = true then none
  else
    let l4tunlen := meo.meoi_l4hlen + meo.meoi_tun_l2hlen +
      meo.meoi_tun_protlen
    let eipt? : Option Nat :=
      if fr.hck_ipv4_hdrcksum = true then
        if meo.meoi_l3proto = ETHERTYPE_IP then
          some I40E_TX_DESC_TNL_EIPT_IPV4_CSUM
        else none
      else if meo.meoi_l3proto = ETHERTYPE_IP then
        some I40E_TX_DESC_TNL_EIPT_IPV4
      else if meo.meoi_l3proto = ETHERTYPE_IPV6 then
        some I40E_TX_DESC_TNL_EIPT_IPV6
      else none
    match eipt? with
    | none => none
    | some eipt =>
      let tctx1 := { tctx with
        itc_ctx_tunnel_fld := txdTnlField eipt (meo.meoi_l3hlen >>> 2)
          I40E_TX_DESC_TNL_L4TUNT_UDP (l4tunlen >>> 1) 0
        itc_data_offsets := tctx.itc_data_offsets |||
          ((meo.meoi_l2hlen >>> 1) <<< I40E_TX_DESC_LENGTH_MACLEN_SHIFT) }
      let iipt? : Option Nat :=
        if fr.hck_inner_v4_hdrcksum = true then
          if meo.meoi_tun_l3proto ≠ ETHERTYPE_IP then none
          else some I40E_TX_DESC_CMD_IIPT_IPV4_CSUM
        else if meo.meoi_l3proto = ETHERTYPE_IP then
          some I40E_TX_DESC_CMD_IIPT_IPV4
        else if meo.meoi_l3proto = ETHERTYPE_IPV6 then
          some I40E_TX_DESC_CMD_IIPT_IPV6
        else none
      match iipt? with
      | none => none
      | some iipt =>
        let tctx2 := { tctx1 with
          itc_data_cmdflags := tctx1.itc_data_cmdflags ||| iipt
          itc_data_offsets := tctx1.itc_data_offsets |||
            ((meo.meoi_tun_l3hlen >>> 2) <<<
              I40E_TX_DESC_LENGTH_IPLEN_SHIFT) }
        if fr.hck_inner_pseudo = true then
          let l4t? : Option Nat :=
            if meo.meoi_tun_l4proto = IPPROTO_TCP then
              some I40E_TX_DESC_CMD_L4T_EOFT_TCP
            else if meo.meoi_tun_l4proto = IPPROTO_UDP then
              some I40E_TX_DESC_CMD_L4T_EOFT_UDP
            else if meo.meoi_tun_l4proto = IPPROTO_SCTP then
              some I40E_TX_DESC_CMD_L4T_EOFT_SCTP
            else none
          match l4t? with
          | none => none
          | some l4t => some { tctx2 with
              itc_data_cmdflags := tctx2.itc_data_cmdflags ||| l4t
              itc_data_offsets := tctx2.itc_data_offsets |||
                ((meo.meoi_tun_l4hlen >>> 2) <<<
                  I40E_TX_DESC_LENGTH_L4_FC_LEN_SHIFT) }
        else some tctx2

/-- The non-tunneled branch of `i40e_tx_context` (source lines
2115-2209): the IPv4 header-checksum request and then the L4
partial-checksum request, each validating the parser flags it needs and
accumulating command flags and offsets. -/
def tx_context_plain (fr : TxFrame) (meo : MacEtherOffloadInfo)
    (tctx : I40eTxContext) : Option I40eTxContext :=
  let step1 : Option I40eTxContext :=
    if fr.hck_ipv4_hdrcksum = true then
      if meo.meoi_l2info_set = false then none
      else if meo.meoi_l3info_set = false then none
      else if meo.meoi_l3proto ≠ ETHERTYPE_IP then none
      else some { tctx with
        itc_data_cmdflags := tctx.itc_data_cmdflags |||
          I40E_TX_DESC_CMD_IIPT_IPV4_CSUM
        itc_data_offsets := tctx.itc_data_offsets |||
          ((meo.meoi_l2hlen >>> 1) <<< I40E_TX_DESC_LENGTH_MACLEN_SHIFT) |||
          ((meo.meoi_l3hlen >>> 2) <<< I40E_TX_DESC_LENGTH_IPLEN_SHIFT) }
    else some tctx
  match step1 with
  | none => none
  | some tctxa =>
    if fr.hck_partialcksum = true then
      if meo.meoi_l4info_set = false then none
      else
        let ipstep : Option I40eTxContext :=
          if fr.hck_ipv4_hdrcksum = false then
            if meo.meoi_l2info_set = false then none
            else if meo.meoi_l3info_set = false then none
            else
              let iipt? : Option Nat :=
                if meo.meoi_l3proto = ETHERTYPE_IP then
                  some I40E_TX_DESC_CMD_IIPT_IPV4
                else if meo.meoi_l3proto = ETHERTYPE_IPV6 then
                  some I40E_TX_DESC_CMD_IIPT_IPV6
                else none
              match iipt? with
              | none => none
              | some iipt => some { tctxa with
                  itc_data_cmdflags := tctxa.itc_data_cmdflags ||| iipt
                  itc_data_offsets := tctxa.itc_data_offsets |||
                    ((meo.meoi_l2hlen >>> 1) <<<
                      I40E_TX_DESC_LENGTH_MACLEN_SHIFT) |||
                    ((meo.meoi_l3hlen >>> 2) <<<
                      I40E_TX_DESC_LENGTH_IPLEN_SHIFT) }
          else some tctxa
        match ipstep with
        | none => none
        | some tctxb =>
          let l4t? : Option Nat :=
            if meo.meoi_l4proto = IPPROTO_TCP then
              some I40E_TX_DESC_CMD_L4T_EOFT_TCP
            else if meo.meoi_l4proto = IPPROTO_UDP then
              some I40E_TX_DESC_CMD_L4T_EOFT_UDP
            else if meo.meoi_l4proto = IPPROTO_SCTP then
              some I40E_TX_DESC_CMD_L4T_EOFT_SCTP
            else none
          match l4t? with
          | none => none
          | some l4t => some { tctxb with
              itc_data_cmdflags := tctxb.itc_data_cmdflags ||| l4t
              itc_data_offsets := tctxb.itc_data_offsets |||
                ((meo.meoi_l4hlen >>> 2) <<<
                  I40E_TX_DESC_LENGTH_L4_FC_LEN_SHIFT) }
    else some tctxa

/-- `i40e_tx_context` (source lines 1926-2227): nothing to do when
hardware checksumming is disabled or no offload was requested; an inner
checksum request implies VXLAN tunneling or fails; parse the frame, run
the tunneled or the plain branch, and finally handle the LSO request
(which demands both checksum offloads and fills the TSO fields). -/
def i40e_tx_context (tx_hcksum_enable : Bool) (fr : TxFrame) :
    Option I40eTxContext :=
  if tx_hcksum_enable = false then some I40eTxContext.zero
  else
    let chkAny := fr.hck_ipv4_hdrcksum || fr.hck_partialcksum ||
      fr.hck_inner_v4_hdrcksum || fr.hck_inner_pseudo
    if chkAny = false ∧ fr.hw_lso = false then some I40eTxContext.zero
    else
      let tunneled := fr.hck_inner_v4_hdrcksum || fr.hck_inner_pseudo
      if tunneled = true ∧ fr.ttype ≠ TType.vxlan then none
      else
        match mac_ether_offload_info fr.chain fr.ttype 0 with
        | none => none
        | some meo =>
          let base := { I40eTxContext.zero with itc_ctx_tunneled := tunneled }
          match (if tunneled = true then tx_context_tunneled fr meo base
            else tx_context_plain fr meo base) with
          | none => none
          | some t1 =>
            if fr.hw_lso = true then
              if ¬(fr.hck_ipv4_hdrcksum = true ∧ fr.hck_partialcksum = true)
              then none
              else some { t1 with
                itc_ctx_cmdflags := t1.itc_ctx_cmdflags |||
                  I40E_TX_CTX_DESC_TSO
                itc_ctx_mss := fr.lso_mss
                itc_ctx_tsolen := msgsize fr.chain -
                  (meo.meoi_l2hlen + meo.meoi_l3hlen + meo.meoi_l4hlen) }
            else some t1

/-! ## TX control blocks and the descriptor ring -/

/-- The `itrq_tcb_type_t` tag of a control block's current occupancy. -/
inductive TcbType where
  | tnone
  | tcopy
  | tdma
  | tdesc
deriving Repr, DecidableEq

/-- `struct i40e_dma_bind_info`: one scatter cookie. -/
structure Dbi where
  dbi_paddr : Nat
  dbi_len : Nat
deriving Repr, DecidableEq

/-- `i40e_tx_control_block_t`: occupancy tag, the frame pointer (held
by the first slot of a frame only), the pre-allocated copy buffer (its
bus address, in-use length and copied bytes), the recorded cookies of a
DMA binding, and the used-LSO-handle flag. -/
structure TxTcb where
  tcb_type : TcbType
  tcb_mp : Option TxFrame
  tcb_dma_addr : Nat
  tcb_dma_len : Nat
  tcb_dma_data : List Nat
  tcb_bind_info : List Dbi
  tcb_used_lso : Bool
deriving Repr, DecidableEq

/-- A 16-byte TX data descriptor; `cmd_type_offset_bsz` is kept as its
unpacked fields (type is always DATA for these). -/
structure TxDataDesc where
  buffer_addr : Nat
  cmd : Nat
  offsets : Nat
  bufsz : Nat
deriving Repr, DecidableEq

/-- A 16-byte TX context descriptor, unpacked; the TSO triple is
meaningful only when `tso` is set. -/
structure TxCtxDesc where
  tunneling_params : Nat
  l2tag2 : Nat
  tso : Bool
  ctx_cmdflags : Nat
  tsolen : Nat
  mss : Nat
deriving Repr, DecidableEq

inductive TxRingDesc where
  | zeroed
  | data (d : TxDataDesc)
  | context (c : TxCtxDesc)
deriving Repr, DecidableEq

/-- The TX half of a `i40e_trqpair_t`, with two trace fields: the data
descriptors written this far (`emitted_data`) and the QTX tail-register
writes (`qtx_tail_writes`), plus the latched FM error. -/
structure TxRingState where
  itrq_tx_ring_size : Nat
  itrq_desc_free : Nat
  itrq_desc_head : Nat
  itrq_desc_tail : Nat
  itrq_tx_blocked : Bool
  itrq_tcb_free_list : List TxTcb
  itrq_tcb_work_list : List (Option TxTcb)
  itrq_desc_ring : List TxRingDesc
  emitted_data : List TxDataDesc
  qtx_tail_writes : List Nat
  fm_error : Bool
deriving Repr, DecidableEq

/-- `i40e_tcb_alloc` (source lines 2241-2259): pop the free stack. -/
def i40e_tcb_alloc (st : TxRingState) : Option TxTcb × TxRingState :=
  match st.itrq_tcb_free_list with
  | [] => (none, st)
  | t :: rest => (some t, { st with itrq_tcb_free_list := rest })

/-- `i40e_tcb_free` (source lines 2229-2239): push on the free stack. -/
def i40e_tcb_free (st : TxRingState) (tcb : TxTcb) : TxRingState :=
  { st with itrq_tcb_free_list := tcb :: st.itrq_tcb_free_list }

/-- `i40e_tcb_reset` (source lines 2266-2308): per-type cleanup (copy:
zero the buffer length; DMA: unbind and drop the cookie list), then
clear the tag, free the frame pointer, clear the chain link.  The
`I40E_TX_NONE` panic is not modelled; a reset of such a block leaves it
unchanged apart from the common tail. -/
def i40e_tcb_reset (tcb : TxTcb) : TxTcb :=
  let t :=
    match tcb.tcb_type with
    | TcbType.tcopy => { tcb with tcb_dma_len := 0 }
    | TcbType.tdma =>
      { tcb with tcb_bind_info := [], tcb_used_lso := false }
    | _ => tcb
  { t with tcb_type := TcbType.tnone, tcb_mp := none }

/-- `i40e_tx_bind_fragment` (source lines 2465-2531): take a control
block, tag it DMA, and bind the fragment.  The oracle `bindRes` stands
for the outcome of `ddi_dma_addr_bind_handle` plus the cookie-list
allocations: `none` collapses every failure mode of the source's
`bffail` path (which resets the block and returns it to the pool), and
`some dbis` is the recorded cookie list (hardware yields at least one
cookie on success). -/
def i40e_tx_bind_fragment (bindRes : Option (List Dbi)) (use_lso : Bool)
    (st : TxRingState) : Option TxTcb × TxRingState :=
  match i40e_tcb_alloc st with
  | (none, st') => (none, st')
  | (some tcb0, st') =>
    let tcb := { tcb0 with tcb_type := TcbType.tdma }
    match bindRes with
    | none => (none, i40e_tcb_free st' (i40e_tcb_reset tcb))
    | some dbis =>
      (some { tcb with tcb_bind_info := dbis, tcb_used_lso := use_lso }, st')

/-- The data descriptor `i40e_tx_set_data_desc` builds for one cookie
(source lines 2546-2563): always ICRC plus the context's command flags,
EOP and RS only on the final descriptor. -/
def mkDataDesc (tctx : I40eTxContext) (dbi : Dbi) (last_desc : Bool) :
    TxDataDesc :=
  { buffer_addr := dbi.dbi_paddr
    cmd := I40E_TX_DESC_CMD_ICRC ||| tctx.itc_data_cmdflags |||
      (if last_desc then I40E_TX_DESC_CMD_EOP ||| I40E_TX_DESC_CMD_RS else 0)
    offsets := tctx.itc_data_offsets
    bufsz := dbi.dbi_len }

/-- `i40e_tx_set_data_desc` (source lines 2533-2564): consume one
descriptor slot at the tail and write the data descriptor there. -/
def i40e_tx_set_data_desc (tctx : I40eTxContext) (dbi : Dbi)
    (last_desc : Bool) (st : TxRingState) : TxRingState :=
  let d := mkDataDesc tctx dbi last_desc
  { st with
    itrq_desc_free := st.itrq_desc_free - 1
    itrq_desc_ring := st.itrq_desc_ring.set st.itrq_desc_tail
      (TxRingDesc.data d)
    itrq_desc_tail := i40e_next_desc st.itrq_desc_tail 1
      st.itrq_tx_ring_size
    emitted_data := st.emitted_data ++ [d] }

/-- Record a control block in the work list at the current tail
(source line 2786). -/
def txWorkAssign (tcb : TxTcb) (st : TxRingState) : TxRingState :=
  { st with itrq_tcb_work_list :=
      st.itrq_tcb_work_list.set st.itrq_desc_tail (some tcb) }

/-- The inner cookie loop of the bind-path emission (source lines
2789-2796): one data descriptor per cookie; `last_desc` is true only
for the final cookie of the final control block (`lastTcb`). -/
def txEmitCookies (tctx : I40eTxContext) (lastTcb : Bool) :
    List Dbi → TxRingState → TxRingState
  | [], st => st
  | [d], st => i40e_tx_set_data_desc tctx d lastTcb st
  | d :: d2 :: rest, st =>
    txEmitCookies tctx lastTcb (d2 :: rest)
      (i40e_tx_set_data_desc tctx d false st)

/-- The outer loop of the bind-path emission (source lines 2780-2797):
for each control block, record it in the work list at the current tail
and emit its cookies. -/
def txEmitDma (tctx : I40eTxContext) :
    List TxTcb → TxRingState → TxRingState
  | [], st => st
  | [t], st => txEmitCookies tctx true t.tcb_bind_info (txWorkAssign t st)
  | t :: t2 :: rest, st =>
    txEmitDma tctx (t2 :: rest)
      (txEmitCookies tctx false t.tcb_bind_info (txWorkAssign t st))

/-- The descriptors the bind-path emission appends, as a pure list: the
cookie loop of one control block. -/
def descList (tctx : I40eTxContext) (lastTcb : Bool) :
    List Dbi → List TxDataDesc
  | [] => []
  | [d] => [mkDataDesc tctx d lastTcb]
  | d :: d2 :: rest =>
    mkDataDesc tctx d false :: descList tctx lastTcb (d2 :: rest)

/-- The descriptors the bind-path emission appends across all control
blocks. -/
def dmaDescList (tctx : I40eTxContext) : List TxTcb → List TxDataDesc
  | [] => []
  | [t] => descList tctx true t.tcb_bind_info
  | t :: t2 :: rest =>
    descList tctx false t.tcb_bind_info ++ dmaDescList tctx (t2 :: rest)

/-! ## TX send (source lines 2566-2873) -/

/-- The instance configuration `i40e_ring_tx` reads. -/
structure I40eTxCfg where
  state_started : Bool
  state_overtemp : Bool
  state_suspended : Bool
  state_error : Bool
  link_up : Bool
  tx_hcksum_enable : Bool
  tx_dma_min : Nat
  tx_block_thresh : Nat

/-- Oracles for one send: the `kmem_zalloc` of the `tcb_dma` pointer
array, the bind outcome for the i-th non-empty fragment, and the FM
verdict on the register handle after the tail write. -/
structure TxSendEnv where
  kmem_tcbdma_ok : Bool
  bindRes : Nat → Option (List Dbi)
  reg_fm_ok : Bool

structure TxSendResult where
  ret : Option TxFrame
  st : TxRingState
deriving Repr, DecidableEq

/-- The `txfail` label (source lines 2848-2872): reset and return the
context and copy control blocks (their frame pointers nulled first so
the frame survives), latch `itrq_tx_blocked`, and hand the frame back.
Note the source does *not* return the already-bound DMA control blocks
of `tcb_dma` to the pool here — the model reproduces that. -/
def txFail (fr : TxFrame) (tcb_ctx tcb_data : Option TxTcb)
    (st : TxRingState) : TxSendResult :=
  let st1 :=
    match tcb_ctx with
    | some t => i40e_tcb_free st (i40e_tcb_reset { t with tcb_mp := none })
    | none => st
  let st2 :=
    match tcb_data with
    | some t => i40e_tcb_free st1 (i40e_tcb_reset { t with tcb_mp := none })
    | none => st1
  { ret := some fr, st := { st2 with itrq_tx_blocked := true } }

/-- The per-fragment bind loop (source lines 2694-2705): skip empty
fragments, bind each non-empty one to its own control block, fail as a
whole when any single bind fails. -/
def txBindFragments (env : TxSendEnv) (use_lso : Bool) :
    List (List Nat) → Nat → TxRingState → Option (List TxTcb) × TxRingState
  | [], _, st => (some [], st)
  | f :: rest, i, st =>
    if f.length = 0 then txBindFragments env use_lso rest i st
    else
      match i40e_tx_bind_fragment (env.bindRes i) use_lso st with
      | (none, st') => (none, st')
      | (some tcb, st') =>
        match txBindFragments env use_lso rest (i + 1) st' with
        | (none, st'') => (none, st'')
        | (some tcbs, st'') => (some (tcb :: tcbs), st'')

/-- Context-descriptor emission (source lines 2744-2778): consume a
slot at the tail, record the context control block there, and write the
context descriptor (tunneling parameters only when tunneled, the TSO
triple only when TSO was requested). -/
def txEmitCtx (tctx : I40eTxContext) (tcb_ctx : Option TxTcb)
    (st : TxRingState) : TxRingState :=
  match tcb_ctx with
  | none => st
  | some tcb =>
    let tso := decide ((tctx.itc_ctx_cmdflags &&& I40E_TX_CTX_DESC_TSO) ≠ 0)
    let c : TxCtxDesc :=
      { tunneling_params :=
          if tctx.itc_ctx_tunneled = true then tctx.itc_ctx_tunnel_fld else 0
        l2tag2 := 0
        tso := tso
        ctx_cmdflags := if tso then tctx.itc_ctx_cmdflags else 0
        tsolen := if tso then tctx.itc_ctx_tsolen else 0
        mss := if tso then tctx.itc_ctx_mss else 0 }
    { st with
      itrq_desc_free := st.itrq_desc_free - 1
      itrq_tcb_work_list :=
        st.itrq_tcb_work_list.set st.itrq_desc_tail (some tcb)
      itrq_desc_ring :=
        st.itrq_desc_ring.set st.itrq_desc_tail (TxRingDesc.context c)
      itrq_desc_tail := i40e_next_desc st.itrq_desc_tail 1
        st.itrq_tx_ring_size }

/-- Copy-path data-descriptor emission (source lines 2799-2823): one
descriptor carrying the copy buffer, with EOP, RS and ICRC. -/
def txEmitCopy (tctx : I40eTxContext) (tcb_data : TxTcb)
    (st : TxRingState) : TxRingState :=
  let cmd := I40E_TX_DESC_CMD_EOP ||| I40E_TX_DESC_CMD_RS |||
    I40E_TX_DESC_CMD_ICRC ||| tctx.itc_data_cmdflags
  let d : TxDataDesc :=
    { buffer_addr := tcb_data.tcb_dma_addr, cmd := cmd,
      offsets := tctx.itc_data_offsets, bufsz := tcb_data.tcb_dma_len }
  { st with
    itrq_desc_free := st.itrq_desc_free - 1
    itrq_tcb_work_list :=
      st.itrq_tcb_work_list.set st.itrq_desc_tail (some tcb_data)
    itrq_desc_ring :=
      st.itrq_desc_ring.set st.itrq_desc_tail (TxRingDesc.data d)
    itrq_desc_tail := i40e_next_desc st.itrq_desc_tail 1
      st.itrq_tx_ring_size
    emitted_data := st.emitted_data ++ [d] }

/-- The arming tail of a successful send (source lines 2825-2846): the
device-direction sync, the QTX tail-register write of the new tail, and
the register-handle FM check; the frame was consumed, so `NULL` goes
back to MAC. -/
def txFinishSend (env : TxSendEnv) (st : TxRingState) : TxSendResult :=
  let st1 := { st with
    qtx_tail_writes := st.qtx_tail_writes ++ [st.itrq_desc_tail] }
  let st2 := if env.reg_fm_ok = false then { st1 with fm_error := true }
    else st1
  { ret := none, st := st2 }

/-- `i40e_ring_tx` (source lines 2581-2873): admission, offload
pre-compute, sizing, optional context control block, copy-or-bind path
selection and staging, the block-threshold admission gate, descriptor
emission, and hardware arming.  Every resource failure goes through
`txFail`, which latches the blocked flag and returns the frame. -/
def i40e_ring_tx (cfg : I40eTxCfg) (env : TxSendEnv) (mp : TxFrame)
    (st0 : TxRingState) : TxSendResult :=
  if cfg.state_started = false ∨ cfg.state_overtemp ∨ cfg.state_suspended ∨
      cfg.state_error ∨ cfg.link_up = false then
    { ret := none, st := st0 }
  else
    match i40e_tx_context cfg.tx_hcksum_enable mp with
    | none => { ret := none, st := st0 }
    | some tctx =>
      let use_lso :=
        decide ((tctx.itc_ctx_cmdflags &&& I40E_TX_CTX_DESC_TSO) ≠ 0)
      let do_ctx_desc := use_lso || tctx.itc_ctx_tunneled
      let mpsize := msgsize mp.chain
      let ctxStep : Option (Option TxTcb) × TxRingState :=
        if do_ctx_desc = true then
          match i40e_tcb_alloc st0 with
          | (none, st') => (none, st')
          | (some t, st') =>
            (some (some { t with tcb_type := TcbType.tdesc }), st')
        else (some none, st0)
      match ctxStep with
      | (none, st1) => txFail mp none none st1
      | (some tcb_ctx, st1) =>
        if use_lso = true ∨ cfg.tx_dma_min < mpsize then
          -- scatter/gather DMA-bind path
          if env.kmem_tcbdma_ok = false then txFail mp tcb_ctx none st1
          else
            match txBindFragments env use_lso mp.chain 0 st1 with
            | (none, st2) => txFail mp tcb_ctx none st2
            | (some tcbs0, st2) =>
              let tcbs :=
                match tcbs0 with
                | [] => []
                | t :: ts => { t with tcb_mp := some mp } :: ts
              if st2.itrq_desc_free < cfg.tx_block_thresh then
                txFail mp tcb_ctx none st2
              else
                txFinishSend env (txEmitDma tctx tcbs
                  (txEmitCtx tctx tcb_ctx st2))
        else
          -- bcopy path
          match i40e_tcb_alloc st1 with
          | (none, st2) => txFail mp tcb_ctx none st2
          | (some t, st2) =>
            let tcb_data := { t with
              tcb_type := TcbType.tcopy
              tcb_dma_data := mp.chain.foldl (· ++ ·) []
              tcb_dma_len := mpsize
              tcb_mp := some mp }
            if st2.itrq_desc_free < cfg.tx_block_thresh then
              txFail mp tcb_ctx (some tcb_data) st2
            else
              txFinishSend env (txEmitCopy tctx tcb_data
                (txEmitCtx tctx tcb_ctx st2))

/-! ## TX completion reclaim (source lines 2359-2463) -/

/-- The inner descriptor-zeroing loop of the reclaim walk (source lines
2424-2433): zero `n` descriptors starting at `toclean`, advancing the
index and the count. -/
def txZeroAdvance : Nat → Nat → TxRingState → Nat →
    TxRingState × Nat × Nat
  | 0, toclean, st, count => (st, toclean, count)
  | n + 1, toclean, st, count =>
    let st' := { st with
      itrq_desc_ring := st.itrq_desc_ring.set toclean TxRingDesc.zeroed }
    txZeroAdvance n (i40e_next_desc toclean 1 st'.itrq_tx_ring_size) st'
      (count + 1)

/-- Result of the reclaim walk: the updated ring, the chained control
blocks (head = most recently chained, as the source's `tcbhead`), the
number of descriptors cleaned, and whether the walk reached the
writeback head within its fuel (the source's loop has no fuel; fuel
exhaustion models a walk that would not terminate and cannot happen for
well-formed rings). -/
structure TxReclaim where
  st : TxRingState
  tcbs : List TxTcb
  count : Nat
  completed : Bool

/-- The reclaim walk (source lines 2403-2434): chain each control block
from the work list, clean `tcb_bind_ncookies` descriptors for a DMA
block and one otherwise, until the software head reaches the writeback
head. -/
def txRecycleLoop (wbhead : Nat) :
    Nat → Nat → TxRingState → List TxTcb → Nat → TxReclaim
  | 0, toclean, st, acc, count =>
    { st := st, tcbs := acc, count := count,
      completed := decide (toclean = wbhead) }
  | fuel + 1, toclean, st, acc, count =>
    if toclean = wbhead then
      { st := st, tcbs := acc, count := count, completed := true }
    else
      match st.itrq_tcb_work_list.get? toclean with
      | none => { st := st, tcbs := acc, count := count, completed := false }
      | some none =>
        { st := st, tcbs := acc, count := count, completed := false }
      | some (some tcb) =>
        let st1 := { st with
          itrq_tcb_work_list := st.itrq_tcb_work_list.set toclean none }
        let dpt := if tcb.tcb_type = TcbType.tdma
          then tcb.tcb_bind_info.length else 1
        match txZeroAdvance dpt toclean st1 count with
        | (st2, toclean', count') =>
          txRecycleLoop wbhead fuel toclean' st2 (tcb :: acc) count'

structure TxRecycleResult where
  st : TxRingState
  ring_update_calls : Nat
  completed : Bool

/-- `i40e_tx_recycle_ring` (source lines 2359-2463): a fully free ring
only clears a latched block (invoking the upstream ring-update) and
returns; an FM failure on the writeback-head sync latches the error and
returns; otherwise walk from the software head to the device-written
writeback head `wbhead`, chain the control blocks, advance the head,
credit the freed descriptors, clear a latched block once the free count
passes the block threshold (invoking the upstream ring-update exactly
once), and finally — after dropping the ring lock — reset and return
every chained control block to the pool.  `ring_update_calls` counts
the `mac_tx_ring_update` invocations of this call. -/
def i40e_tx_recycle_ring (tx_block_thresh wbhead : Nat) (fm_ok : Bool)
    (st : TxRingState) : TxRecycleResult :=
  if st.itrq_desc_free = st.itrq_tx_ring_size then
    if st.itrq_tx_blocked = true then
      { st := { st with itrq_tx_blocked := false }, ring_update_calls := 1,
        completed := true }
    else { st := st, ring_update_calls := 0, completed := true }
  else if fm_ok = false then
    { st := { st with fm_error := true }, ring_update_calls := 0,
      completed := true }
  else
    let r := txRecycleLoop wbhead (st.itrq_tx_ring_size + 1)
      st.itrq_desc_head st [] 0
    let st2 := { r.st with
      itrq_desc_head := wbhead
      itrq_desc_free := r.st.itrq_desc_free + r.count }
    let unblock := st2.itrq_tx_blocked = true ∧
      tx_block_thresh < st2.itrq_desc_free
    let st3 := if unblock then { st2 with itrq_tx_blocked := false } else st2
    let st4 := r.tcbs.foldl (fun s t => i40e_tcb_free s (i40e_tcb_reset t)) st3
    { st := st4, ring_update_calls := if unblock then 1 else 0,
      completed := r.completed }

/-! ## Concrete fixtures

Small concrete states used by witnesses and counterexamples: a
started instance with ring size 4, copy threshold 256, one frame per
interrupt, a pool of eight buffers, and an environment where every
oracle succeeds. -/

def sampleRxCfg : I40eRxCfg :=
  { state_started := true, state_overtemp := false, state_suspended := false,
    state_error := false, rx_dma_min := 256, rx_limit_per_intr := 1,
    rx_hcksum_enable := false }

def sampleRxEnv : RxEnv :=
  { rx_err_bits := 1, desc_fm_ok := true, desc_fm_ok2 := true,
    reg_fm_ok := true, rcb_fm_ok := fun _ => true,
    allocb_ok := fun _ => true, desballoc_ok := fun _ => true }

/-- A descriptor the device has marked done (length 64, no errors). -/
def sampleDescReady : RxDesc :=
  { wb_dd := true, wb_eop := true, wb_error := 0, wb_plen := 64,
    wb_ptype := 0, read_pkt_addr := 0, read_hdr_addr := 0 }

/-- A descriptor the device has not written yet. -/
def sampleDescIdle : RxDesc :=
  { wb_dd := false, wb_eop := false, wb_error := 0, wb_plen := 0,
    wb_ptype := 0, read_pkt_addr := 0, read_hdr_addr := 0 }

/-- A bound receive buffer holding 128 bytes of value 7. -/
def sampleRcb : Rcb :=
  { rcb_ref := 1
    rcb_mp := none
    rcb_dma :=
      { dmab_address := some 100, dmab_dma_address := some 200,
        dmab_acc_handle := some 1, dmab_dma_handle := some 2,
        dmab_size := 2046, dmab_len := 0 }
    rcb_data := List.replicate 128 7 }

/-- Ring with three ready descriptors out of four. -/
def sampleRxData3 : RxData :=
  { rxd_ring_size := 4,
    rxd_desc_ring := [sampleDescReady, sampleDescReady, sampleDescReady,
      sampleDescIdle],
    rxd_desc_next := 0, rxd_work_list := [0, 1, 2, 3],
    rxd_free_list := [4, 5, 6, 7],
    rxd_rcbs := List.replicate 8 sampleRcb,
    rxd_rcb_pending := 0, rxd_shutdown := false }

/-- Ring with one ready descriptor out of four. -/
def sampleRxData1 : RxData :=
  { sampleRxData3 with
    rxd_desc_ring := [sampleDescReady, sampleDescIdle, sampleDescIdle,
      sampleDescIdle] }

/-- Ring with no ready descriptor at all. -/
def sampleRxData0 : RxData :=
  { sampleRxData3 with
    rxd_desc_ring := [sampleDescIdle, sampleDescIdle, sampleDescIdle,
      sampleDescIdle] }

/-- A 14-byte Ethernet header whose Ethertype is ARP (`0x0806`),
neither IP nor IPv6. -/
def sampleArpFrame : List (List Nat) :=
  [[0, 0, 0, 0, 0, 0, 0, 0, 0, 0, 0, 0, 0x08, 0x06]]

/-- Ring whose free list has run dry. -/
def sampleRxDataNoFree : RxData :=
  { sampleRxData1 with rxd_free_list := [] }

/-- An rcb whose reference count already dropped to zero. -/
def sampleRcbRefZero : Rcb := { sampleRcb with rcb_ref := 0 }

def sampleRecycleState : RxRecycleState :=
  { rxd := { sampleRxData1 with rxd_rcbs := [sampleRcbRefZero] },
    i40e_rx_pending := 0, rxd_freed := false, cv_broadcasts := 0 }

/-- A started TX instance: copy threshold 256, block threshold 8. -/
def sampleTxCfg : I40eTxCfg :=
  { state_started := true, state_overtemp := false, state_suspended := false,
    state_error := false, link_up := true, tx_hcksum_enable := false,
    tx_dma_min := 256, tx_block_thresh := 8 }

def sampleTxEnv : TxSendEnv :=
  { kmem_tcbdma_ok := true,
    bindRes := fun _ => some [{ dbi_paddr := 900, dbi_len := 64 }],
    reg_fm_ok := true }

/-- A reset control block sitting on the free list. -/
def sampleBlankTcb : TxTcb :=
  { tcb_type := TcbType.tnone, tcb_mp := none, tcb_dma_addr := 500,
    tcb_dma_len := 0, tcb_dma_data := [], tcb_bind_info := [],
    tcb_used_lso := false }

/-- A 64-byte single-fragment frame with no offloads requested. -/
def sampleTxFrame : TxFrame :=
  { chain := [List.replicate 64 1], hck_ipv4_hdrcksum := false,
    hck_partialcksum := false, hck_inner_v4_hdrcksum := false,
    hck_inner_pseudo := false, hw_lso := false, lso_mss := 0,
    ttype := TType.tnone }

/-- A 16-slot TX ring whose free descriptor count (4) has fallen below
the block threshold (8). -/
def sampleTxRingLow : TxRingState :=
  { itrq_tx_ring_size := 16, itrq_desc_free := 4, itrq_desc_head := 0,
    itrq_desc_tail := 12, itrq_tx_blocked := false,
    itrq_tcb_free_list := [sampleBlankTcb, sampleBlankTcb, sampleBlankTcb],
    itrq_tcb_work_list := List.replicate 16 none,
    itrq_desc_ring := List.replicate 16 TxRingDesc.zeroed,
    emitted_data := [], qtx_tail_writes := [], fm_error := false }

/-- An occupied copy-mode control block (one descriptor each). -/
def sampleCopyTcb : TxTcb :=
  { sampleBlankTcb with tcb_type := TcbType.tcopy, tcb_dma_len := 64 }

/-- A blocked 4-slot TX ring with two completed copy slots waiting to
be reclaimed (head 0, device writeback head 2), one free descriptor and
block threshold 2. -/
def sampleTxRingBlocked : TxRingState :=
  { itrq_tx_ring_size := 4, itrq_desc_free := 1, itrq_desc_head := 0,
    itrq_desc_tail := 3, itrq_tx_blocked := true,
    itrq_tcb_free_list := [],
    itrq_tcb_work_list := [some sampleCopyTcb, some sampleCopyTcb, none,
      none],
    itrq_desc_ring := List.replicate 4 TxRingDesc.zeroed,
    emitted_data := [], qtx_tail_writes := [], fm_error := false }

/-- A context with IPv4-checksum and TCP command flags (bits 0 and 1
clear, as `i40e_tx_context` always produces). -/
def sampleTxContext : I40eTxContext :=
  { I40eTxContext.zero with
    itc_data_cmdflags := I40E_TX_DESC_CMD_IIPT_IPV4_CSUM |||
      I40E_TX_DESC_CMD_L4T_EOFT_TCP }

/-- A DMA-bound control block with two cookies. -/
def sampleDmaTcb : TxTcb :=
  { sampleBlankTcb with
    tcb_type := TcbType.tdma
    tcb_bind_info := [{ dbi_paddr := 1000, dbi_len := 4000 },
      { dbi_paddr := 9000, dbi_len := 1000 }] }

end I40e

/-! # Theorems -/

namespace I40e

/-- C9: `i40e_free_dma_buffer` is idempotent: one call nulls the
handles, the addresses and the size, so a second call on the same
buffer (including a fully zeroed or partially initialised one) changes
nothing.  The two hypotheses are the allocation-order invariant of
`i40e_alloc_dma_buffer`: the size is written only at the bind step
(together with the bus address), and the virtual address only together
with the access handle, so every buffer the driver ever frees —
zeroed, partially initialised, or fully bound — satisfies them. -/
theorem free_dma_buffer_idempotent (d : DmaBuffer)
    (h1 : d.dmab_size ≠ 0 → d.dmab_dma_address ≠ none)
    (h2 : d.dmab_address ≠ none → d.dmab_acc_handle ≠ none) :
    i40e_free_dma_buffer (i40e_free_dma_buffer d) = i40e_free_dma_buffer d ∧
    (i40e_free_dma_buffer d).dmab_dma_handle = none ∧
    (i40e_free_dma_buffer d).dmab_acc_handle = none ∧
    (i40e_free_dma_buffer d).dmab_address = none ∧
    (i40e_free_dma_buffer d).dmab_dma_address = none ∧
    (i40e_free_dma_buffer d).dmab_size = 0 ∧
    (i40e_free_dma_buffer d).dmab_len = 0 := by
  obtain ⟨a, da, ah, dh, sz, ln⟩ := d
  simp only [i40e_free_dma_buffer]
  rcases a with _ | a <;> rcases da with _ | da <;>
    rcases ah with _ | ah <;> rcases dh with _ | dh <;>
      simp_all

/-- Witness for C9: a partially initialised buffer (only the DMA handle
allocated, as after a failure in step two of `i40e_alloc_dma_buffer`). -/
theorem free_dma_buffer_idempotent_witness :
    i40e_free_dma_buffer (i40e_free_dma_buffer
      { DmaBuffer.zeroed with dmab_dma_handle := some 7 }) =
    i40e_free_dma_buffer
      { DmaBuffer.zeroed with dmab_dma_handle := some 7 } :=
  (free_dma_buffer_idempotent
    { DmaBuffer.zeroed with dmab_dma_handle := some 7 }
    (by intro h; simp [DmaBuffer.zeroed] at h)
    (by intro h; simp [DmaBuffer.zeroed] at h)).1

/-- C10: `i40e_rx_recycle` on a control block whose reference count is
already zero returns immediately: the free list, the reference count,
the pending counters and the buffer's DMA resources are all left
untouched (the whole state is unchanged). -/
theorem rx_recycle_ref_zero_noop (d : Bool) (i : Nat) (s : RxRecycleState)
    (rcb : Rcb) (hget : s.rxd.rxd_rcbs.get? i = some rcb)
    (href : rcb.rcb_ref = 0) :
    i40e_rx_recycle d i s = s := by
  simp only [i40e_rx_recycle, hget, href, if_pos]

/-- Witness for C10 at a concrete one-rcb state. -/
theorem rx_recycle_ref_zero_noop_witness :
    i40e_rx_recycle true 0 sampleRecycleState = sampleRecycleState :=
  rx_recycle_ref_zero_noop true 0 sampleRecycleState sampleRcbRefZero
    (by rfl) (by rfl)

/-! ### RX walk frame lemmas -/

lemma rxRearm_frames (w : RxWalk) : (rxRearm w).frames = w.frames := rfl

lemma rxRearm_rx_bytes (w : RxWalk) : (rxRearm w).rx_bytes = w.rx_bytes := rfl

lemma rxRearm_rx_frames (w : RxWalk) :
    (rxRearm w).rx_frames = w.rx_frames + 1 := rfl

lemma rxRearm_writes (w : RxWalk) :
    (rxRearm w).qrx_tail_writes = w.qrx_tail_writes := rfl

lemma rxConsume_rx_bytes (cfg : I40eRxCfg) (env : RxEnv) (plen : Nat)
    (w : RxWalk) : (rxConsume cfg env plen w).rx_bytes = w.rx_bytes + plen :=
  rfl

lemma rxConsume_rx_frames (cfg : I40eRxCfg) (env : RxEnv) (plen : Nat)
    (w : RxWalk) : (rxConsume cfg env plen w).rx_frames = w.rx_frames :=
  rfl

lemma rxConsume_writes (cfg : I40eRxCfg) (env : RxEnv) (plen : Nat)
    (w : RxWalk) :
    (rxConsume cfg env plen w).qrx_tail_writes = w.qrx_tail_writes :=
  rfl

/-- A frame produced by the bind path spans exactly `plen` bytes. -/
lemma rx_bind_mp_len (env : RxEnv) (rxd : RxData) (index plen : Nat)
    (mp : RxMblk) (h : (i40e_rx_bind env rxd index plen).mp = some mp) :
    mp.wptr - mp.rptr = plen := by
  unfold i40e_rx_bind i40e_rcb_alloc at h
  repeat' split at h
  all_goals try simp_all
  all_goals (rw [← h]; simp)

/-- A frame produced by the copy path spans exactly `plen` bytes. -/
lemma rx_copy_mp_len (env : RxEnv) (rxd : RxData) (index plen : Nat)
    (mp : RxMblk) (h : (i40e_rx_copy env rxd index plen).mp = some mp) :
    mp.wptr - mp.rptr = plen := by
  unfold i40e_rx_copy at h
  repeat' split at h
  all_goals try simp_all
  all_goals (rw [← h]; simp)

lemma sumLen_append (l : List RxMblk) (m : RxMblk) :
    sumLen (l ++ [m]) = sumLen l + (m.wptr - m.rptr) := by
  simp [sumLen]

/-- A frame produced by `rxProduce` spans exactly `plen` bytes (it came
either from the bind path or from the copy path). -/
lemma rxProduce_mp_len (cfg : I40eRxCfg) (env : RxEnv) (rxd : RxData)
    (index plen : Nat) (mp : RxMblk)
    (h : (rxProduce cfg env rxd index plen).mp = some mp) :
    mp.wptr - mp.rptr = plen := by
  unfold rxProduce at h
  simp only [] at h
  by_cases hc : cfg.rx_dma_min ≤ plen
  · rw [if_pos hc] at h
    cases hb : (i40e_rx_bind env rxd index plen).mp with
    | some m =>
      rw [hb] at h
      simp only [] at h
      exact rx_bind_mp_len env rxd index plen mp h
    | none =>
      rw [hb] at h
      simp only [] at h
      exact rx_copy_mp_len env _ index plen mp h
  · rw [if_neg hc] at h
    simp only [] at h
    exact rx_copy_mp_len env _ index plen mp h

/-- Consuming one frame of length `plen` grows the delivered byte total
by at most `plen`. -/
lemma rxConsume_sumLen (cfg : I40eRxCfg) (env : RxEnv) (plen : Nat)
    (w : RxWalk) :
    sumLen (rxConsume cfg env plen w).frames ≤ sumLen w.frames + plen := by
  show sumLen (match (rxProduce cfg env w.rxd w.cur_head plen).mp with
    | some mp => w.frames ++ [mp]
    | none => w.frames) ≤ sumLen w.frames + plen
  cases h : (rxProduce cfg env w.rxd w.cur_head plen).mp with
  | some mp =>
    simp only [sumLen_append,
      rxProduce_mp_len cfg env w.rxd w.cur_head plen mp h, le_refl]
  | none => exact Nat.le_add_right _ _

/-- The descriptor walk itself never writes the tail register. -/
lemma rxLoop_writes (cfg : I40eRxCfg) (env : RxEnv) (pb : Option Nat) :
    ∀ (fuel : Nat) (w : RxWalk),
    (rxLoop cfg env pb fuel w).qrx_tail_writes = w.qrx_tail_writes := by
  intro fuel
  induction fuel with
  | zero => intro w; rfl
  | succ n ih =>
    intro w
    simp only [rxLoop]
    split
    · rfl
    split
    · rfl
    split
    · rfl
    split
    · split
      · exact rxRearm_writes w
      · rw [ih, rxRearm_writes]
    split
    · rfl
    split
    · rw [rxRearm_writes, rxConsume_writes]
    · rw [ih, rxRearm_writes, rxConsume_writes]

/-- The walk consumes at most one frame past the per-interrupt limit:
starting below the limit it ends at most one above it. -/
lemma rxLoop_frames_le (cfg : I40eRxCfg) (env : RxEnv) (pb : Option Nat) :
    ∀ (fuel : Nat) (w : RxWalk),
    w.rx_frames ≤ cfg.rx_limit_per_intr →
    (rxLoop cfg env pb fuel w).rx_frames ≤ cfg.rx_limit_per_intr + 1 := by
  intro fuel
  induction fuel with
  | zero => intro w hw; exact Nat.le_succ_of_le hw
  | succ n ih =>
    intro w hw
    simp only [rxLoop]
    split
    · exact Nat.le_succ_of_le hw
    split
    · exact Nat.le_succ_of_le hw
    split
    · exact Nat.le_succ_of_le hw
    split
    · split
      · next h =>
        rw [rxRearm_rx_frames]
        exact Nat.succ_le_succ hw
      · next h =>
        exact ih _ (Nat.not_lt.mp h)
    split
    · exact Nat.le_succ_of_le hw
    split
    · rw [rxRearm_rx_frames, rxConsume_rx_frames]
      exact Nat.succ_le_succ hw
    · next h =>
      exact ih _ (Nat.not_lt.mp h)

/-- Quota invariant of the walk: the delivered byte total never exceeds
the byte counter, and in polling mode the byte counter never exceeds
the quota. -/
lemma rxLoop_quota (cfg : I40eRxCfg) (env : RxEnv) (q : Nat) :
    ∀ (fuel : Nat) (w : RxWalk),
    sumLen w.frames ≤ w.rx_bytes → w.rx_bytes ≤ q →
    sumLen (rxLoop cfg env (some q) fuel w).frames ≤
      (rxLoop cfg env (some q) fuel w).rx_bytes ∧
    (rxLoop cfg env (some q) fuel w).rx_bytes ≤ q := by
  intro fuel
  induction fuel with
  | zero => intro w h1 h2; exact ⟨h1, h2⟩
  | succ n ih =>
    intro w h1 h2
    simp only [rxLoop]
    split
    · exact ⟨h1, h2⟩
    next desc heq =>
    split
    · exact ⟨h1, h2⟩
    split
    · exact ⟨h1, h2⟩
    split
    · -- discard of an errored frame: bytes and frames unchanged
      split
      · exact ⟨by rw [rxRearm_frames, rxRearm_rx_bytes]; exact h1,
          by rw [rxRearm_rx_bytes]; exact h2⟩
      · exact ih _ (by rw [rxRearm_frames, rxRearm_rx_bytes]; exact h1)
          (by rw [rxRearm_rx_bytes]; exact h2)
    split
    · exact ⟨h1, h2⟩
    next hpoll =>
    -- frame consumed: the quota check just passed
    have hple : w.rx_bytes + desc.wb_plen ≤ q :=
      Nat.not_lt.mp (by simpa [pollExceeded] using hpoll)
    have hc1 : sumLen (rxRearm (rxConsume cfg env desc.wb_plen w)).frames ≤
        (rxRearm (rxConsume cfg env desc.wb_plen w)).rx_bytes := by
      rw [rxRearm_frames, rxRearm_rx_bytes, rxConsume_rx_bytes]
      exact le_trans (rxConsume_sumLen cfg env desc.wb_plen w)
        (Nat.add_le_add_right h1 _)
    have hc2 : (rxRearm (rxConsume cfg env desc.wb_plen w)).rx_bytes ≤ q := by
      rw [rxRearm_rx_bytes, rxConsume_rx_bytes]
      exact hple
    split
    · exact ⟨hc1, hc2⟩
    · exact ih _ hc1 hc2

/-- The loop-exit processing never changes the delivered frame list. -/
lemma rxFinish_frames (env : RxEnv) (w : RxWalk) :
    (rxFinish env w).frames = w.frames := by
  unfold rxFinish
  repeat' split
  all_goals rfl

/-- The loop-exit processing never changes the byte counter. -/
lemma rxFinish_rx_bytes (env : RxEnv) (w : RxWalk) :
    (rxFinish env w).rx_bytes = w.rx_bytes := by
  unfold rxFinish
  repeat' split
  all_goals rfl

/-- The loop-exit processing never changes the frame counter. -/
lemma rxFinish_rx_frames (env : RxEnv) (w : RxWalk) :
    (rxFinish env w).rx_frames = w.rx_frames := by
  unfold rxFinish
  repeat' split
  all_goals rfl

/-- The loop-exit processing never changes the panic marker. -/
lemma rxFinish_panicked (env : RxEnv) (w : RxWalk) :
    (rxFinish env w).panicked = w.panicked := by
  unfold rxFinish
  repeat' split
  all_goals rfl

/-- When the walk consumed a frame and did not panic, the loop-exit
processing emits exactly one tail-register write whose value is the
decremented updated software head, modulo the ring size. -/
lemma rxFinish_writes (env : RxEnv) (w : RxWalk)
    (hp : w.panicked = false) (hf : w.rx_frames ≠ 0)
    (hw : w.qrx_tail_writes = []) :
    (rxFinish env w).qrx_tail_writes =
      [i40e_prev_desc (rxFinish env w).rxd.rxd_desc_next 1
        (rxFinish env w).rxd.rxd_ring_size] := by
  unfold rxFinish
  rw [if_neg (by simp [hp])]
  simp only []
  rw [if_pos hf]
  by_cases h2 : env.desc_fm_ok2 = false <;>
    by_cases h4 : env.reg_fm_ok = false <;>
    simp [h2, h4, hw]

/-- C4: a polled invocation of the RX ring engine (finite
`quota_bytes`) never delivers more than `quota_bytes` bytes of frames:
a ready frame whose addition would push the running total past the
quota stops the walk before it is consumed. -/
theorem ring_rx_poll_quota (cfg : I40eRxCfg) (env : RxEnv) (rxd : RxData)
    (q : Nat) :
    sumLen (i40e_ring_rx cfg env (some q) rxd).frames ≤ q ∧
    (i40e_ring_rx cfg env (some q) rxd).rx_bytes ≤ q := by
  have h0 : sumLen (RxWalk.init rxd true).frames ≤
      (RxWalk.init rxd true).rx_bytes := by
    simp [RxWalk.init, sumLen]
  have h := rxLoop_quota cfg env q (cfg.rx_limit_per_intr + 2)
    (RxWalk.init rxd true) h0 (Nat.zero_le q)
  have hq := le_trans h.1 h.2
  unfold i40e_ring_rx
  split
  · exact ⟨by simp [RxWalk.init, sumLen], Nat.zero_le q⟩
  split
  · exact ⟨by simp [RxWalk.init, sumLen], Nat.zero_le q⟩
  · exact ⟨by rw [rxFinish_frames]; exact hq,
      by rw [rxFinish_rx_bytes]; exact h.2⟩

/-- C5 (amended): an interrupt-mode invocation of the RX ring engine
consumes at most `rx_limit_per_intr + 1` frames — one more than the
configured limit, because the limit check runs after the frame counter
is bumped. -/
theorem ring_rx_intr_frame_bound (cfg : I40eRxCfg) (env : RxEnv)
    (rxd : RxData) :
    (i40e_ring_rx cfg env none rxd).rx_frames ≤ cfg.rx_limit_per_intr + 1 := by
  have h := rxLoop_frames_le cfg env none (cfg.rx_limit_per_intr + 2)
    (RxWalk.init rxd true) (by simp [RxWalk.init])
  unfold i40e_ring_rx
  split
  · simp [RxWalk.init]
  split
  · simp [RxWalk.init]
  · rw [rxFinish_rx_frames]
    exact h

/-- Counterexample to C5 as stated: with `rx_limit_per_intr = 1` and
three ready descriptors, one interrupt-mode invocation consumes two
frames — more than the configured limit. -/
theorem ring_rx_intr_limit_cex :
    (i40e_ring_rx sampleRxCfg sampleRxEnv none sampleRxData3).rx_frames = 2 ∧
    sampleRxCfg.rx_limit_per_intr = 1 := by
  exact ⟨by decide, by decide⟩

/-- C6: when a ready frame's length reaches the copy threshold the
engine attempts the bind path first; with an empty free list the bind
attempt returns null, and the frame is delivered through the copy path:
a fresh header of `plen` plus the two-byte pad whose payload is copied
two bytes in, while the slot's own DMA buffer stays in place (the RX
data, in particular the work list, is unchanged). -/
theorem rx_bind_empty_freelist_copy (cfg : I40eRxCfg) (env : RxEnv)
    (rxd : RxData) (index plen ri : Nat) (rcb : Rcb)
    (hfree : rxd.rxd_free_list = [])
    (hwork : rxd.rxd_work_list.get? index = some ri)
    (hrcb : rxd.rxd_rcbs.get? ri = some rcb)
    (hmin : cfg.rx_dma_min ≤ plen)
    (hfm : env.rcb_fm_ok index = true)
    (halloc : env.allocb_ok index = true) :
    (i40e_rx_bind env rxd index plen).mp = none ∧
    (rxProduce cfg env rxd index plen).mp = some
      { bytes := List.replicate I40E_BUF_IPHDR_ALIGNMENT 0 ++
          rcb.rcb_data.take plen,
        rptr := I40E_BUF_IPHDR_ALIGNMENT,
        wptr := I40E_BUF_IPHDR_ALIGNMENT + plen } ∧
    (rxProduce cfg env rxd index plen).rxd = rxd := by
  have hbind : i40e_rx_bind env rxd index plen =
      { mp := none, rxd := rxd, fmerr := false } := by
    unfold i40e_rx_bind i40e_rcb_alloc
    rw [hfree]
  have hcopy : i40e_rx_copy env rxd index plen =
      { mp := some
          { bytes := List.replicate I40E_BUF_IPHDR_ALIGNMENT 0 ++
              rcb.rcb_data.take plen,
            rptr := I40E_BUF_IPHDR_ALIGNMENT,
            wptr := I40E_BUF_IPHDR_ALIGNMENT + plen },
        rxd := rxd, fmerr := false } := by
    unfold i40e_rx_copy
    rw [hwork]
    have hrcb' : rxd.rxd_rcbs[ri]? = some rcb := by simpa using hrcb
    simp [hrcb', hfm, halloc]
  refine ⟨by rw [hbind], ?_, ?_⟩ <;>
    · unfold rxProduce
      rw [if_pos hmin, hbind]
      simp only [hcopy]

/-- Witness for C6 at a concrete state with an empty free list and a
300-byte frame (threshold 256). -/
theorem rx_bind_empty_freelist_copy_witness :
    (i40e_rx_bind sampleRxEnv sampleRxDataNoFree 0 300).mp = none ∧
    (rxProduce sampleRxCfg sampleRxEnv sampleRxDataNoFree 0 300).mp = some
      { bytes := List.replicate I40E_BUF_IPHDR_ALIGNMENT 0 ++
          sampleRcb.rcb_data.take 300,
        rptr := I40E_BUF_IPHDR_ALIGNMENT,
        wptr := I40E_BUF_IPHDR_ALIGNMENT + 300 } ∧
    (rxProduce sampleRxCfg sampleRxEnv sampleRxDataNoFree 0 300).rxd =
      sampleRxDataNoFree :=
  rx_bind_empty_freelist_copy sampleRxCfg sampleRxEnv sampleRxDataNoFree
    0 300 0 sampleRcb (by rfl) (by rfl) (by rfl) (by decide) (by rfl) (by rfl)

/-- C7 (amended): whenever an RX walk consumed at least one frame and
did not hit the fatal missing-EOP assertion, the hardware tail register
is written exactly once, with `(software_head - 1) mod ring_size` where
`software_head` is the updated next-to-process index; a walk that
consumed no frame performs no tail write. -/
theorem ring_rx_tail_write (cfg : I40eRxCfg) (env : RxEnv)
    (pb : Option Nat) (rxd : RxData) (r : RxWalk)
    (hr : i40e_ring_rx cfg env pb rxd = r)
    (hf : r.rx_frames ≠ 0) (hp : r.panicked = false) :
    r.qrx_tail_writes =
      [i40e_prev_desc r.rxd.rxd_desc_next 1 r.rxd.rxd_ring_size] := by
  subst hr
  unfold i40e_ring_rx at hf hp ⊢
  by_cases hadm : cfg.state_started = false ∨ cfg.state_overtemp ∨
      cfg.state_suspended ∨ cfg.state_error
  · rw [if_pos hadm] at hf
    simp [RxWalk.init] at hf
  rw [if_neg hadm] at hf hp ⊢
  by_cases hfm0 : env.desc_fm_ok = false
  · rw [if_pos hfm0] at hf
    simp [RxWalk.init] at hf
  rw [if_neg hfm0] at hf hp ⊢
  set w := rxLoop cfg env pb (cfg.rx_limit_per_intr + 2) (RxWalk.init rxd true)
    with hw
  have hwr : w.qrx_tail_writes = [] := by
    rw [hw, rxLoop_writes]
    rfl
  rw [rxFinish_panicked] at hp
  rw [rxFinish_rx_frames] at hf
  exact rxFinish_writes env w hp hf hwr

/-- Witness for C7 (amended) at a concrete one-ready-descriptor state:
the single tail write carries `(1 - 1) mod 4 = 0`. -/
theorem ring_rx_tail_write_witness :
    (i40e_ring_rx sampleRxCfg sampleRxEnv none sampleRxData1).qrx_tail_writes =
      [i40e_prev_desc
        (i40e_ring_rx sampleRxCfg sampleRxEnv none
          sampleRxData1).rxd.rxd_desc_next 1
        (i40e_ring_rx sampleRxCfg sampleRxEnv none
          sampleRxData1).rxd.rxd_ring_size] :=
  ring_rx_tail_write sampleRxCfg sampleRxEnv none sampleRxData1 _ rfl
    (by decide) (by decide)

/-- Counterexample to C7 as stated: a walk that finds no ready
descriptor exits without writing the tail register at all (the trace of
QRX tail writes is empty), although it passed admission and entered the
walk. -/
theorem ring_rx_tail_write_cex :
    (i40e_ring_rx sampleRxCfg sampleRxEnv none sampleRxData0).entered = true ∧
    (i40e_ring_rx sampleRxCfg sampleRxEnv none
      sampleRxData0).qrx_tail_writes = [] := by
  exact ⟨by decide, by decide⟩

/-- C3 (amended): for a frame whose Ethertype after an optional VLAN
tag is neither IP nor IPv6, `mac_ether_offload_info` does *not* fail:
it returns success (0) with only the L2 information set — the L3 and
L4 info flags stay clear.  (A later offload request on such a frame is
then rejected by `i40e_tx_context`'s flag checks, but the parser itself
reports success.) -/
theorem meoi_non_ip_returns_l2_only (mp : List (List Nat)) (e : Nat)
    (he : resolvedEtherType mp = some e)
    (hip : e ≠ ETHERTYPE_IP) (hip6 : e ≠ ETHERTYPE_IPV6) :
    ∃ m, mac_ether_offload_info mp TType.tnone 0 = some m ∧
      m.meoi_l2info_set = true ∧ m.meoi_l3info_set = false ∧
      m.meoi_l4info_set = false := by
  unfold resolvedEtherType at he
  unfold mac_ether_offload_info meoiCore
  cases h12 : i40e_meoi_get_uint16 mp ETHER_TYPE_OFF with
  | none => rw [h12] at he; exact absurd he (by simp)
  | some e0 =>
    rw [h12] at he
    simp only [] at he
    simp only [Nat.add_zero, h12]
    by_cases hvlan : e0 = ETHERTYPE_VLAN
    · rw [if_pos hvlan] at he
      cases h16 : i40e_meoi_get_uint16 mp ETHER_VLAN_TYPE_OFF with
      | none => rw [h16] at he; exact absurd he (by simp)
      | some e2 =>
        rw [h16] at he
        have he2 : e2 = e := by injection he
        subst he2
        refine ⟨{ MacEtherOffloadInfo.zero with
          meoi_vlan_tagged := true, meoi_l2info_set := true,
          meoi_l2hlen := ETHER_VLAN_HDR_SIZE, meoi_l3proto := e2 }, ?_,
          rfl, rfl, rfl⟩
        simp [if_pos hvlan, h16, if_neg hip, if_neg hip6,
          MacEtherOffloadInfo.zero]
    · rw [if_neg hvlan] at he
      have he0 : e0 = e := by injection he
      subst he0
      refine ⟨{ MacEtherOffloadInfo.zero with
        meoi_l2info_set := true, meoi_l2hlen := ETHER_HDR_SIZE,
        meoi_l3proto := e0 }, ?_, rfl, rfl, rfl⟩
      simp [if_neg hvlan, if_neg hip, if_neg hip6, MacEtherOffloadInfo.zero]

/-- Witness for C3 (amended) at the concrete ARP frame. -/
theorem meoi_non_ip_returns_l2_only_witness :
    ∃ m, mac_ether_offload_info sampleArpFrame TType.tnone 0 = some m ∧
      m.meoi_l2info_set = true ∧ m.meoi_l3info_set = false ∧
      m.meoi_l4info_set = false :=
  meoi_non_ip_returns_l2_only sampleArpFrame 0x0806 (by decide)
    (by decide) (by decide)

/-- Counterexample to C3 as stated: on a concrete ARP frame (Ethertype
`0x0806`, neither IP nor IPv6) the parser returns success, not the
failure the claim asserts. -/
theorem meoi_non_ip_fails_cex :
    (mac_ether_offload_info sampleArpFrame TType.tnone 0).isSome = true ∧
    resolvedEtherType sampleArpFrame = some 0x0806 := by
  exact ⟨by decide, by decide⟩

/-! ### TX send -/

/-- Every exit of `i40e_ring_tx` either consumed or dropped the frame
(`NULL` return), or went through `txfail`: the same frame comes back
and the blocked flag is latched. -/
lemma ring_tx_ret_cases (cfg : I40eTxCfg) (env : TxSendEnv) (mp : TxFrame)
    (st : TxRingState) :
    (i40e_ring_tx cfg env mp st).ret = none ∨
    ((i40e_ring_tx cfg env mp st).ret = some mp ∧
      (i40e_ring_tx cfg env mp st).st.itrq_tx_blocked = true) := by
  unfold i40e_ring_tx
  simp only []
  repeat' first
    | split
    | simp only []
  all_goals try (left; first | rfl | trivial)
  all_goals (right; exact ⟨rfl, rfl⟩)

/-- C1: whenever the TX send operation returns a non-null value, the
returned frame is the very frame that was passed in, and the ring's
`itrq_tx_blocked` flag is true at the time of return. -/
theorem ring_tx_returns_same_frame_blocked (cfg : I40eTxCfg)
    (env : TxSendEnv) (mp : TxFrame) (st : TxRingState) (mp' : TxFrame)
    (h : (i40e_ring_tx cfg env mp st).ret = some mp') :
    mp' = mp ∧ (i40e_ring_tx cfg env mp st).st.itrq_tx_blocked = true := by
  rcases ring_tx_ret_cases cfg env mp st with hn | ⟨hs, hb⟩
  · rw [hn] at h
    cases h
  · rw [hs] at h
    exact ⟨(Option.some.inj h).symm, hb⟩

/-- Witness for C1: a ring whose free descriptor count is below the
block threshold hands the frame back with the blocked flag set. -/
theorem ring_tx_returns_same_frame_blocked_witness :
    sampleTxFrame = sampleTxFrame ∧
    (i40e_ring_tx sampleTxCfg sampleTxEnv sampleTxFrame
      sampleTxRingLow).st.itrq_tx_blocked = true :=
  ring_tx_returns_same_frame_blocked sampleTxCfg sampleTxEnv sampleTxFrame
    sampleTxRingLow sampleTxFrame (by decide)

/-! ### TX completion reclaim -/

/-- Descriptor zeroing touches neither the blocked flag nor the free
count. -/
lemma txZeroAdvance_pres : ∀ (n toclean : Nat) (st : TxRingState)
    (count : Nat),
    (txZeroAdvance n toclean st count).1.itrq_tx_blocked =
      st.itrq_tx_blocked ∧
    (txZeroAdvance n toclean st count).1.itrq_desc_free = st.itrq_desc_free
  | 0, _, _, _ => ⟨rfl, rfl⟩
  | n + 1, toclean, st, count => by
    rw [txZeroAdvance]
    exact txZeroAdvance_pres n _ _ _

/-- The reclaim walk touches neither the blocked flag nor the free
count. -/
lemma txRecycleLoop_pres (wbhead : Nat) : ∀ (fuel toclean : Nat)
    (st : TxRingState) (acc : List TxTcb) (count : Nat),
    (txRecycleLoop wbhead fuel toclean st acc count).st.itrq_tx_blocked =
      st.itrq_tx_blocked ∧
    (txRecycleLoop wbhead fuel toclean st acc count).st.itrq_desc_free =
      st.itrq_desc_free
  | 0, _, _, _, _ => ⟨rfl, rfl⟩
  | fuel + 1, toclean, st, acc, count => by
    rw [txRecycleLoop]
    split
    · exact ⟨rfl, rfl⟩
    · split
      · exact ⟨rfl, rfl⟩
      · exact ⟨rfl, rfl⟩
      · next tcb _ =>
        simp only []
        rcases hza : txZeroAdvance
            (if tcb.tcb_type = TcbType.tdma then tcb.tcb_bind_info.length
              else 1)
            toclean
            { st with
              itrq_tcb_work_list := st.itrq_tcb_work_list.set toclean none }
            count with ⟨st2, toclean', count'⟩
        have hz := txZeroAdvance_pres
          (if tcb.tcb_type = TcbType.tdma then tcb.tcb_bind_info.length
            else 1)
          toclean
          { st with
            itrq_tcb_work_list := st.itrq_tcb_work_list.set toclean none }
          count
        rw [hza] at hz
        have hrec := txRecycleLoop_pres wbhead fuel toclean' st2
          (tcb :: acc) count'
        exact ⟨hrec.1.trans hz.1, hrec.2.trans hz.2⟩

/-- Returning control blocks to the pool touches neither the blocked
flag nor the free count. -/
lemma tcbFreeFold_pres : ∀ (l : List TxTcb) (st : TxRingState),
    (l.foldl (fun s t => i40e_tcb_free s (i40e_tcb_reset t))
      st).itrq_tx_blocked = st.itrq_tx_blocked ∧
    (l.foldl (fun s t => i40e_tcb_free s (i40e_tcb_reset t))
      st).itrq_desc_free = st.itrq_desc_free
  | [], _ => ⟨rfl, rfl⟩
  | t :: rest, st => by
    rw [List.foldl_cons]
    exact tcbFreeFold_pres rest _

/-- C2: whenever the TX completion reclaim runs on a blocked ring (with
a clean writeback-head sync) and the free descriptor count after the
reclaim exceeds the block threshold, the blocked flag is cleared and
the upstream `mac_tx_ring_update` callback is invoked exactly once.
The walk is assumed to terminate cleanly at the writeback head
(`completed`), as it does on any well-formed ring — the C loop simply
does not return otherwise. -/
theorem tx_recycle_unblocks_once (thresh wbhead : Nat) (st : TxRingState)
    (hb : st.itrq_tx_blocked = true)
    (_hcomp : (i40e_tx_recycle_ring thresh wbhead true st).completed = true)
    (hfree : thresh <
      (i40e_tx_recycle_ring thresh wbhead true st).st.itrq_desc_free) :
    (i40e_tx_recycle_ring thresh wbhead true st).st.itrq_tx_blocked =
      false ∧
    (i40e_tx_recycle_ring thresh wbhead true st).ring_update_calls = 1 := by
  unfold i40e_tx_recycle_ring at hfree ⊢
  by_cases h1 : st.itrq_desc_free = st.itrq_tx_ring_size
  · rw [if_pos h1]
    rw [if_pos h1] at hfree
    rw [if_pos hb]
    exact ⟨rfl, rfl⟩
  · rw [if_neg h1] at hfree ⊢
    rw [if_neg (by decide : ¬(true = false))] at hfree ⊢
    simp only [] at hfree ⊢
    set r := txRecycleLoop wbhead (st.itrq_tx_ring_size + 1)
      st.itrq_desc_head st [] 0 with hr
    have hpres := txRecycleLoop_pres wbhead (st.itrq_tx_ring_size + 1)
      st.itrq_desc_head st [] 0
    rw [← hr] at hpres
    by_cases hub : r.st.itrq_tx_blocked = true ∧
        thresh < r.st.itrq_desc_free + r.count
    · rw [if_pos hub, if_pos hub]
      refine ⟨?_, rfl⟩
      rw [(tcbFreeFold_pres r.tcbs _).1]
    · rw [if_neg hub] at hfree
      rw [(tcbFreeFold_pres r.tcbs _).2] at hfree
      exact absurd ⟨by rw [hpres.1]; exact hb, hfree⟩ hub

/-- Witness for C2: a blocked four-slot ring reclaims two copy slots,
reaching three free descriptors, above the threshold of two. -/
theorem tx_recycle_unblocks_once_witness :
    (i40e_tx_recycle_ring 2 2 true sampleTxRingBlocked).st.itrq_tx_blocked =
      false ∧
    (i40e_tx_recycle_ring 2 2 true sampleTxRingBlocked).ring_update_calls =
      1 :=
  tx_recycle_unblocks_once 2 2 sampleTxRingBlocked (by decide) (by decide)
    (by decide)

/-! ### TX bind-path emission -/

/-- Bits 0 and 1 of a value divisible by four are clear. -/
lemma testBit01_of_mod4 (x : Nat) (h : x % 4 = 0) :
    x.testBit 0 = false ∧ x.testBit 1 = false := by
  constructor <;> (simp [Nat.testBit_to_div_mod]; omega)

/-- A non-final data descriptor has EOP and RS clear (given the
command-flags invariant: `i40e_tx_context` only ORs IIPT/L4T values,
all with bits 0-1 clear). -/
lemma mkDataDesc_nonlast_bits (tctx : I40eTxContext) (dbi : Dbi)
    (h : tctx.itc_data_cmdflags % 4 = 0) :
    (mkDataDesc tctx dbi false).cmd.testBit 0 = false ∧
    (mkDataDesc tctx dbi false).cmd.testBit 1 = false := by
  obtain ⟨h0, h1⟩ := testBit01_of_mod4 _ h
  have hcmd : (mkDataDesc tctx dbi false).cmd =
      I40E_TX_DESC_CMD_ICRC ||| tctx.itc_data_cmdflags ||| 0 := rfl
  have e0 : Nat.testBit I40E_TX_DESC_CMD_ICRC 0 = false := by decide
  have e1 : Nat.testBit I40E_TX_DESC_CMD_ICRC 1 = false := by decide
  constructor
  · rw [hcmd, Nat.testBit_lor, Nat.testBit_lor, h0, e0, Nat.zero_testBit]
    rfl
  · rw [hcmd, Nat.testBit_lor, Nat.testBit_lor, h1, e1, Nat.zero_testBit]
    rfl

/-- The final data descriptor has EOP and RS set. -/
lemma mkDataDesc_last_bits (tctx : I40eTxContext) (dbi : Dbi) :
    (mkDataDesc tctx dbi true).cmd.testBit 0 = true ∧
    (mkDataDesc tctx dbi true).cmd.testBit 1 = true := by
  have hcmd : (mkDataDesc tctx dbi true).cmd =
      I40E_TX_DESC_CMD_ICRC ||| tctx.itc_data_cmdflags |||
        (I40E_TX_DESC_CMD_EOP ||| I40E_TX_DESC_CMD_RS) := rfl
  have e0 : Nat.testBit (I40E_TX_DESC_CMD_EOP ||| I40E_TX_DESC_CMD_RS) 0 =
      true := by decide
  have e1 : Nat.testBit (I40E_TX_DESC_CMD_EOP ||| I40E_TX_DESC_CMD_RS) 1 =
      true := by decide
  constructor
  · rw [hcmd, Nat.testBit_lor, e0, Bool.or_true]
  · rw [hcmd, Nat.testBit_lor, e1, Bool.or_true]

/-- Every data descriptor carries ICRC. -/
lemma mkDataDesc_icrc (tctx : I40eTxContext) (dbi : Dbi) (b : Bool) :
    (mkDataDesc tctx dbi b).cmd.testBit 2 = true := by
  have e : Nat.testBit I40E_TX_DESC_CMD_ICRC 2 = true := by decide
  cases b
  · have hcmd : (mkDataDesc tctx dbi false).cmd =
        I40E_TX_DESC_CMD_ICRC ||| tctx.itc_data_cmdflags ||| 0 := rfl
    rw [hcmd, Nat.testBit_lor, Nat.testBit_lor, e, Bool.true_or,
      Bool.true_or]
  · have hcmd : (mkDataDesc tctx dbi true).cmd =
        I40E_TX_DESC_CMD_ICRC ||| tctx.itc_data_cmdflags |||
          (I40E_TX_DESC_CMD_EOP ||| I40E_TX_DESC_CMD_RS) := rfl
    rw [hcmd, Nat.testBit_lor, Nat.testBit_lor, e, Bool.true_or,
      Bool.true_or]

/-- The cookie loop appends exactly the descriptors of `descList`. -/
lemma txEmitCookies_emitted (tctx : I40eTxContext) (lastTcb : Bool) :
    ∀ (cs : List Dbi) (st : TxRingState),
    (txEmitCookies tctx lastTcb cs st).emitted_data =
      st.emitted_data ++ descList tctx lastTcb cs
  | [], st => by simp [txEmitCookies, descList]
  | [d], st => by
    simp [txEmitCookies, descList, i40e_tx_set_data_desc]
  | d :: d2 :: rest, st => by
    rw [txEmitCookies, descList,
      txEmitCookies_emitted tctx lastTcb (d2 :: rest)]
    simp [i40e_tx_set_data_desc]

/-- The bind-path emission appends exactly the descriptors of
`dmaDescList`. -/
lemma txEmitDma_emitted (tctx : I40eTxContext) :
    ∀ (ts : List TxTcb) (st : TxRingState),
    (txEmitDma tctx ts st).emitted_data =
      st.emitted_data ++ dmaDescList tctx ts
  | [], st => by simp [txEmitDma, dmaDescList]
  | [t], st => by
    rw [txEmitDma, dmaDescList, txEmitCookies_emitted]
    rfl
  | t :: t2 :: rest, st => by
    rw [txEmitDma, dmaDescList, txEmitDma_emitted tctx (t2 :: rest),
      txEmitCookies_emitted]
    simp [txWorkAssign]

lemma descList_length (tctx : I40eTxContext) (b : Bool) :
    ∀ (cs : List Dbi), (descList tctx b cs).length = cs.length
  | [] => rfl
  | [_] => rfl
  | d :: d2 :: rest => by
    rw [descList]
    simp [descList_length tctx b (d2 :: rest)]

/-- With `lastTcb = false` every emitted descriptor of the cookie loop
is a non-final one. -/
lemma descList_false_all (tctx : I40eTxContext) :
    ∀ (cs : List Dbi), ∀ d ∈ descList tctx false cs,
    ∃ dbi, d = mkDataDesc tctx dbi false
  | [], d, hd => by simp [descList] at hd
  | [c], d, hd => by
    simp [descList] at hd
    exact ⟨c, hd⟩
  | c :: c2 :: rest, d, hd => by
    rw [descList] at hd
    rcases List.mem_cons.mp hd with hd1 | hd1
    · exact ⟨c, hd1⟩
    · exact descList_false_all tctx (c2 :: rest) d hd1

/-- Shape of the cookie loop's output: all cookies but the last give
non-final descriptors, the last gives `lastTcb`. -/
lemma descList_shape (tctx : I40eTxContext) (b : Bool) :
    ∀ (cs : List Dbi), cs ≠ [] →
    ∃ dbil, cs.getLast? = some dbil ∧
      descList tctx b cs =
        (cs.dropLast.map (fun d => mkDataDesc tctx d false)) ++
          [mkDataDesc tctx dbil b]
  | [], h => absurd rfl h
  | [c], _ => ⟨c, rfl, by simp [descList]⟩
  | c :: c2 :: rest, _ => by
    obtain ⟨dbil, hlast, hshape⟩ :=
      descList_shape tctx b (c2 :: rest) (by simp)
    refine ⟨dbil, ?_, ?_⟩
    · rw [List.getLast?_cons_cons, hlast]
    · rw [descList, hshape]
      simp

/-- Shape of the whole bind-path emission: a prefix of non-final
descriptors followed by the single final descriptor, which is built
from the last cookie of the last control block; the total count is the
cookie count. -/
lemma dmaDescList_shape (tctx : I40eTxContext) :
    ∀ (ts : List TxTcb), ts ≠ [] →
    (∀ t ∈ ts, t.tcb_bind_info ≠ []) →
    ∃ pre tl dbil,
      ts.getLast? = some tl ∧
      tl.tcb_bind_info.getLast? = some dbil ∧
      dmaDescList tctx ts = pre ++ [mkDataDesc tctx dbil true] ∧
      (∀ d ∈ pre, ∃ dbi, d = mkDataDesc tctx dbi false) ∧
      pre.length + 1 = (ts.map (fun t => t.tcb_bind_info.length)).sum
  | [], h, _ => absurd rfl h
  | [t], _, hck => by
    obtain ⟨dbil, hlast, hshape⟩ :=
      descList_shape tctx true t.tcb_bind_info (hck t (by simp))
    refine ⟨t.tcb_bind_info.dropLast.map (fun d => mkDataDesc tctx d false),
      t, dbil, rfl, hlast, ?_, ?_, ?_⟩
    · rw [dmaDescList, hshape]
    · intro d hd
      rcases List.mem_map.mp hd with ⟨dbi, _, hdbi⟩
      exact ⟨dbi, hdbi.symm⟩
    · have hpos : 0 < t.tcb_bind_info.length :=
        List.length_pos.mpr (hck t (by simp))
      simp [List.length_dropLast]
      omega
  | t :: t2 :: rest, _, hck => by
    obtain ⟨pre, tl, dbil, htl, hdbil, hshape, hpre, hlen⟩ :=
      dmaDescList_shape tctx (t2 :: rest) (by simp)
        (fun u hu => hck u (List.mem_cons_of_mem t hu))
    refine ⟨descList tctx false t.tcb_bind_info ++ pre, tl, dbil, ?_,
      hdbil, ?_, ?_, ?_⟩
    · rw [List.getLast?_cons_cons, htl]
    · rw [dmaDescList, hshape, List.append_assoc]
    · intro d hd
      rcases List.mem_append.mp hd with hd | hd
      · exact descList_false_all tctx t.tcb_bind_info d hd
      · exact hpre d hd
    · simp only [List.map_cons, List.sum_cons, List.length_append,
        descList_length] at hlen ⊢
      omega

/-- C8: in the TX bind path, the emitted descriptors are exactly
`dmaDescList`; every one of them carries ICRC; EOP and RS are set on
exactly one — the descriptor built from the last cookie of the last
control block (whose buffer address and length are that cookie's) —
and clear on every earlier descriptor.  The hypothesis on
`itc_data_cmdflags` is the invariant of `i40e_tx_context`'s outputs:
only IIPT/L4T values (all divisible by four) are ever ORed in. -/
theorem tx_bind_emission_eop_rs (tctx : I40eTxContext)
    (tcbs : List TxTcb) (st : TxRingState)
    (hflags : tctx.itc_data_cmdflags % 4 = 0)
    (hne : tcbs ≠ [])
    (hcookies : ∀ t ∈ tcbs, t.tcb_bind_info ≠ [])
    (hemit : st.emitted_data = []) :
    (txEmitDma tctx tcbs st).emitted_data = dmaDescList tctx tcbs ∧
    (dmaDescList tctx tcbs).length =
      (tcbs.map (fun t => t.tcb_bind_info.length)).sum ∧
    (∀ d ∈ dmaDescList tctx tcbs, d.cmd.testBit 2 = true) ∧
    (∀ d ∈ (dmaDescList tctx tcbs).dropLast,
      d.cmd.testBit 0 = false ∧ d.cmd.testBit 1 = false) ∧
    (∃ tl dbil dl, tcbs.getLast? = some tl ∧
      tl.tcb_bind_info.getLast? = some dbil ∧
      (dmaDescList tctx tcbs).getLast? = some dl ∧
      dl.buffer_addr = dbil.dbi_paddr ∧ dl.bufsz = dbil.dbi_len ∧
      dl.cmd.testBit 0 = true ∧ dl.cmd.testBit 1 = true) ∧
    (dmaDescList tctx tcbs).countP
      (fun d => d.cmd.testBit 0 || d.cmd.testBit 1) = 1 := by
  obtain ⟨pre, tl, dbil, htl, hdbil, hshape, hpre, hlen⟩ :=
    dmaDescList_shape tctx tcbs hne hcookies
  have hbits : ∀ d ∈ pre, d.cmd.testBit 0 = false ∧ d.cmd.testBit 1 = false := by
    intro d hd
    obtain ⟨dbi, hdbi⟩ := hpre d hd
    rw [hdbi]
    exact mkDataDesc_nonlast_bits tctx dbi hflags
  refine ⟨?_, ?_, ?_, ?_, ?_, ?_⟩
  · rw [txEmitDma_emitted, hemit, List.nil_append]
  · rw [hshape]
    simp
    omega
  · intro d hd
    rw [hshape] at hd
    rcases List.mem_append.mp hd with hd | hd
    · obtain ⟨dbi, hdbi⟩ := hpre d hd
      rw [hdbi]
      exact mkDataDesc_icrc tctx dbi false
    · rw [List.mem_singleton.mp hd]
      exact mkDataDesc_icrc tctx dbil true
  · intro d hd
    rw [hshape, List.dropLast_concat] at hd
    exact hbits d hd
  · exact ⟨tl, dbil, mkDataDesc tctx dbil true, htl, hdbil,
      by rw [hshape]; exact List.getLast?_concat pre, rfl, rfl,
      (mkDataDesc_last_bits tctx dbil).1, (mkDataDesc_last_bits tctx dbil).2⟩
  · rw [hshape, List.countP_append]
    have h0 : pre.countP (fun d => d.cmd.testBit 0 || d.cmd.testBit 1) = 0 :=
      List.countP_eq_zero.mpr (fun d hd => by
        obtain ⟨hb0, hb1⟩ := hbits d hd
        simp [hb0, hb1])
    have hp : ((mkDataDesc tctx dbil true).cmd.testBit 0 ||
        (mkDataDesc tctx dbil true).cmd.testBit 1) = true := by
      rw [(mkDataDesc_last_bits tctx dbil).1, Bool.true_or]
    rw [h0]
    simp [List.countP_cons, hp]
    exact fun _ => (mkDataDesc_last_bits tctx dbil).2

/-- Witness for C8: two bound control blocks (two cookies and one
cookie) with IPv4-checksum/TCP command flags, emitted into an empty
trace. -/
theorem tx_bind_emission_eop_rs_witness :
    (txEmitDma sampleTxContext [sampleDmaTcb,
      { sampleDmaTcb with
        tcb_bind_info := [{ dbi_paddr := 7000, dbi_len := 64 }] }]
      sampleTxRingLow).emitted_data =
      dmaDescList sampleTxContext [sampleDmaTcb,
        { sampleDmaTcb with
          tcb_bind_info := [{ dbi_paddr := 7000, dbi_len := 64 }] }] :=
  (tx_bind_emission_eop_rs sampleTxContext
    [sampleDmaTcb,
      { sampleDmaTcb with
        tcb_bind_info := [{ dbi_paddr := 7000, dbi_len := 64 }] }]
    sampleTxRingLow (by decide) (by decide) (by decide) (by rfl)).1

end I40e
